import Mathlib

/-!
Shallow embedding of the pythonvm-rust core (marshal decoder, object store,
interpreter state machinery) and verification of its specification claims.

Conventions:
* `ObjectRef` is the opaque store handle; we model it as a `Nat` id.
* Rust `HashMap`s are modelled as association lists with insert-replace
  semantics (`AList.insert`, `List.lookup`); the iteration order of a map is
  never observed by the embedded code.
* The process-wide atomic counters (`CURRENT_REF_ID`, `CURRENT_VERSION`) are
  modelled as counters owned by the `ObjectStore`, as a single VM instance
  observes them: monotonically increasing, never reused.
* Rust panics are modelled as the `VMPanic` error of an `Except`; returning
  `Except.error` means the process aborts at that point.
-/

namespace PyVM

/-- Insert-or-replace into an association list, modelling `HashMap::insert`
(replaces the binding if the key is present, otherwise adds it). -/
def AList.insert {α β : Type} [BEq α] (k : α) (v : β) : List (α × β) → List (α × β)
  | [] => [(k, v)]
  | (k2, v2) :: rest => if k == k2 then (k, v) :: rest else (k2, v2) :: AList.insert k v rest

instance {ε α : Type} [DecidableEq ε] [DecidableEq α] : DecidableEq (Except ε α) :=
  fun a b =>
    match a, b with
    | Except.error e1, Except.error e2 =>
      if h : e1 = e2 then isTrue (by rw [h])
      else isFalse (by intro hc; injection hc; contradiction)
    | Except.error _, Except.ok _ => isFalse (by intro hc; cases hc)
    | Except.ok _, Except.error _ => isFalse (by intro hc; cases hc)
    | Except.ok a1, Except.ok a2 =>
      if h : a1 = a2 then isTrue (by rw [h])
      else isFalse (by intro hc; injection hc; contradiction)

/-- An opaque object handle (`ObjectRef` in `objects/mod.rs`): a globally
unique, copyable id; equality is reference identity (Python `is`). -/
abbrev ObjectRef := Nat

/-- `Code` from `objects/mod.rs`: a compiled function/module body. -/
structure Code where
  argcount : Nat
  kwonlyargcount : Nat
  nlocals : Nat
  stacksize : Nat
  flags : Nat
  code : List Nat
  consts : List ObjectRef
  names : List String
  varnames : List String
  freevars : List ObjectRef
  cellvars : List ObjectRef
  filename : String
  name : String
  firstlineno : Nat
  lnotab : ObjectRef
deriving DecidableEq

/-- `Code::co_varargs` from `objects/mod.rs`: flag bit 2 means the code
accepts variadic positional arguments. -/
def Code.co_varargs (c : Code) : Bool := c.flags &&& 0x4 != 0

/-- `ObjectContent` from `objects/mod.rs`. The `function` variant carries the
keyword-default map and `dict` exists as a variant, following the final
design used by `processor/mod.rs` (spec section 3: "Function(defining-module
name, code ref, keyword defaults)"); the snapshot of `objects/mod.rs` under
`src/` predates those two fields. -/
inductive ObjectContent where
  | none_ : ObjectContent
  | true_ : ObjectContent
  | false_ : ObjectContent
  | int : Nat → ObjectContent
  | string : String → ObjectContent
  | tuple : List ObjectRef → ObjectContent
  | list : List ObjectRef → ObjectContent
  | code : Code → ObjectContent
  | set : List ObjectRef → ObjectContent
  | frozenset : List ObjectRef → ObjectContent
  | bytes : List Nat → ObjectContent
  | function : String → ObjectRef → List (String × ObjectRef) → ObjectContent
  | module : ObjectRef → ObjectContent
  | primitiveNamespace : ObjectContent
  | primitiveFunction : String → ObjectContent
  | class_ : Option ObjectRef → ObjectContent
  | randomAccessIterator : ObjectRef → Nat → Nat → ObjectContent
  | dict : List (ObjectRef × ObjectRef) → ObjectContent
  | otherObject : ObjectContent
deriving DecidableEq

/-- `Object` from `objects/mod.rs`. -/
structure Object where
  version : Nat
  name : Option String
  content : ObjectContent
  class_ : ObjectRef
  bases : Option (List ObjectRef)
deriving DecidableEq

/-- `Object::new_instance`: the version argument models the value drawn from
the global `CURRENT_VERSION` counter at creation time. -/
def Object.new_instance (version : Nat) (name : Option String) (class_ : ObjectRef)
    (content : ObjectContent) : Object :=
  { version := version, name := name, content := content, class_ := class_, bases := Option.none }

/-- `Object::new_class`. -/
def Object.new_class (version : Nat) (name : String) (code : Option ObjectRef)
    (metaclass : ObjectRef) (bases : List ObjectRef) : Object :=
  { version := version, name := some name, content := ObjectContent.class_ code,
    class_ := metaclass, bases := some bases }

/-- `ObjectStore` from `objects/mod.rs`, with the two global counters owned
by the store (spec section 9). -/
structure ObjectStore where
  nextRef : Nat
  nextVersion : Nat
  objects : List (Nat × Object)
deriving DecidableEq

/-- `ObjectStore::new`. -/
def ObjectStore.new : ObjectStore := { nextRef := 0, nextVersion := 0, objects := [] }

/-- The read half of `ObjectStore::deref`: `none` when the ref is unknown
(where the Rust `unwrap` panics). -/
def ObjectStore.lookup (s : ObjectStore) (r : ObjectRef) : Option Object :=
  s.objects.lookup r

/-- `ObjectRef::new`: draw a fresh id from the id counter. -/
def ObjectStore.newRef (s : ObjectStore) : ObjectRef × ObjectStore :=
  (s.nextRef, { s with nextRef := s.nextRef + 1 })

/-- `Object::new_version`: draw a fresh version from the version counter. -/
def ObjectStore.newVersion (s : ObjectStore) : Nat × ObjectStore :=
  (s.nextVersion, { s with nextVersion := s.nextVersion + 1 })

/-- `ObjectStore::allocate`: always succeeds with a fresh ref. -/
def ObjectStore.allocate (s : ObjectStore) (obj : Object) : ObjectRef × ObjectStore :=
  let (r, s) := s.newRef
  (r, { s with objects := AList.insert r obj s.objects })

/-- `ObjectStore::allocate_at`: fill a previously reserved placeholder;
`none` models the "Already allocated" panic. -/
def ObjectStore.allocate_at (s : ObjectStore) (r : ObjectRef) (obj : Object) :
    Option ObjectStore :=
  match s.lookup r with
  | Option.none => some { s with objects := AList.insert r obj s.objects }
  | some _ => Option.none

/-- The write-back of an `ObjectStore::deref_mut` mutation: replace the
object stored at `r`. Note that, exactly as in the source, this does NOT
touch the object version counter. -/
def ObjectStore.set (s : ObjectStore) (r : ObjectRef) (obj : Object) : ObjectStore :=
  { s with objects := AList.insert r obj s.objects }

/-- Allocate a fresh `Object::new_instance`; helper for the ubiquitous
`store.allocate(Object::new_instance(...))` pattern. -/
def ObjectStore.allocInstance (s : ObjectStore) (name : Option String) (class_ : ObjectRef)
    (content : ObjectContent) : ObjectRef × ObjectStore :=
  let (v, s) := s.newVersion
  s.allocate (Object.new_instance v name class_ content)

/-- Allocate a fresh `Object::new_class`; helper for
`store.allocate(Object::new_class(...))`. -/
def ObjectStore.allocClass (s : ObjectStore) (name : String) (code : Option ObjectRef)
    (metaclass : ObjectRef) (bases : List ObjectRef) : ObjectRef × ObjectStore :=
  let (v, s) := s.newVersion
  s.allocate (Object.new_class v name code metaclass bases)

/-- `PrimitiveObjects` from `objects/mod.rs`: the bootstrap type registry. -/
structure PrimitiveObjects where
  object : ObjectRef
  type_ : ObjectRef
  none_type : ObjectRef
  none : ObjectRef
  int_type : ObjectRef
  bool_type : ObjectRef
  true_obj : ObjectRef
  false_obj : ObjectRef
  tuple_type : ObjectRef
  list_type : ObjectRef
  set_type : ObjectRef
  frozenset_type : ObjectRef
  bytes_type : ObjectRef
  str_type : ObjectRef
  iterator_type : ObjectRef
  function_type : ObjectRef
  code_type : ObjectRef
  module : ObjectRef
  baseexception : ObjectRef
  processorerror : ObjectRef
  exception : ObjectRef
  nameerror : ObjectRef
  attributeerror : ObjectRef
  typeerror : ObjectRef
  stopiteration : ObjectRef
  lookuperror : ObjectRef
  keyerror : ObjectRef
  names_map : List (String × ObjectRef)
deriving DecidableEq

/-- `PrimitiveObjects::new` from `objects/mod.rs`: bootstrap the built-in
type and exception hierarchy. `none` models the "Already allocated" panic of
the two `allocate_at` calls (it cannot occur on a store whose id counter is
ahead of its contents, e.g. `ObjectStore.new`). -/
def PrimitiveObjects.new (store : ObjectStore) : Option (PrimitiveObjects × ObjectStore) := do
  let (obj_ref, store) := store.newRef
  let (type_ref, store) := store.newRef
  let (objv, store) := store.newVersion
  let obj : Object :=
    { version := objv, name := some "object", content := ObjectContent.otherObject,
      bases := some [], class_ := type_ref }
  let (typev, store) := store.newVersion
  let type_ : Object :=
    { version := typev, name := some "type", content := ObjectContent.otherObject,
      bases := some [obj_ref], class_ := type_ref }
  let store ← store.allocate_at obj_ref obj
  let store ← store.allocate_at type_ref type_
  let (none_type, store) := store.allocClass "nonetype" Option.none type_ref [obj_ref]
  let (none, store) := store.allocInstance (some "None") none_type ObjectContent.none_
  let (int_type, store) := store.allocClass "int" Option.none type_ref [obj_ref]
  let (bool_type, store) := store.allocClass "bool" Option.none type_ref [int_type]
  let (true_obj, store) := store.allocInstance (some "True") bool_type ObjectContent.true_
  let (false_obj, store) := store.allocInstance (some "False") bool_type ObjectContent.false_
  let (tuple_type, store) := store.allocClass "tuple" Option.none type_ref [obj_ref]
  let (list_type, store) := store.allocClass "list" Option.none type_ref [obj_ref]
  let (set_type, store) := store.allocClass "set" Option.none type_ref [obj_ref]
  let (frozenset_type, store) := store.allocClass "frozenset" Option.none type_ref [obj_ref]
  let (bytes_type, store) := store.allocClass "bytes" Option.none type_ref [obj_ref]
  let (str_type, store) := store.allocClass "str" Option.none type_ref [obj_ref]
  let (iterator_type, store) := store.allocClass "iterator" Option.none type_ref [obj_ref]
  let (function_type, store) := store.allocClass "function" Option.none type_ref [obj_ref]
  let (code_type, store) := store.allocClass "code" Option.none type_ref [obj_ref]
  let (module, store) := store.allocClass "module" Option.none type_ref [obj_ref]
  let (baseexception, store) := store.allocClass "BaseException" Option.none type_ref [obj_ref]
  let (processorerror, store) := store.allocClass "ProcessorError" Option.none type_ref [baseexception]
  let (exception, store) := store.allocClass "Exception" Option.none type_ref [baseexception]
  let (nameerror, store) := store.allocClass "NameError" Option.none type_ref [exception]
  let (attributeerror, store) := store.allocClass "AttributeError" Option.none type_ref [exception]
  let (typeerror, store) := store.allocClass "TypeError" Option.none type_ref [exception]
  let (stopiteration, store) := store.allocClass "StopIteration" Option.none type_ref [exception]
  let (lookuperror, store) := store.allocClass "LookupError" Option.none type_ref [exception]
  let (keyerror, store) := store.allocClass "KeyError" Option.none type_ref [lookuperror]
  let map : List (String × ObjectRef) := []
  let map := AList.insert "object" obj_ref map
  let map := AList.insert "tuple" type_ref map
  let map := AList.insert "nonetype" none_type map
  let map := AList.insert "None" none map
  let map := AList.insert "True" true_obj map
  let map := AList.insert "False" false_obj map
  let map := AList.insert "int" int_type map
  let map := AList.insert "bool" bool_type map
  let map := AList.insert "tuple" tuple_type map
  let map := AList.insert "list" list_type map
  let map := AList.insert "set" set_type map
  let map := AList.insert "frozenset" frozenset_type map
  let map := AList.insert "bytes" bytes_type map
  let map := AList.insert "str" str_type map
  let map := AList.insert "function" function_type map
  let map := AList.insert "code" code_type map
  let map := AList.insert "module" module map
  let map := AList.insert "BaseException" baseexception map
  let map := AList.insert "ProcessorError" processorerror map
  let map := AList.insert "Exception" exception map
  let map := AList.insert "NameError" nameerror map
  let map := AList.insert "AttributeError" attributeerror map
  let map := AList.insert "TypeError" typeerror map
  let map := AList.insert "StopIteration" stopiteration map
  let map := AList.insert "LookupError" lookuperror map
  let map := AList.insert "KeyError" keyerror map
  pure ({ object := obj_ref, type_ := type_ref,
          none_type := none_type, none := none,
          int_type := int_type, bool_type := bool_type,
          true_obj := true_obj, false_obj := false_obj,
          tuple_type := tuple_type, list_type := list_type,
          set_type := set_type, frozenset_type := frozenset_type,
          bytes_type := bytes_type, str_type := str_type,
          iterator_type := iterator_type,
          function_type := function_type, code_type := code_type,
          baseexception := baseexception, processorerror := processorerror,
          exception := exception,
          nameerror := nameerror, attributeerror := attributeerror,
          typeerror := typeerror, stopiteration := stopiteration,
          lookuperror := lookuperror, keyerror := keyerror,
          module := module, names_map := map }, store)

/-- `PrimitiveObjects::new_int`: allocate an int instance. -/
def ObjectStore.new_int (s : ObjectStore) (po : PrimitiveObjects) (i : Nat) :
    ObjectRef × ObjectStore :=
  s.allocInstance Option.none po.int_type (ObjectContent.int i)

/-- `PrimitiveObjects::new_string`. -/
def ObjectStore.new_string (s : ObjectStore) (po : PrimitiveObjects) (str : String) :
    ObjectRef × ObjectStore :=
  s.allocInstance Option.none po.str_type (ObjectContent.string str)

/-- `PrimitiveObjects::new_bytes`. -/
def ObjectStore.new_bytes (s : ObjectStore) (po : PrimitiveObjects) (b : List Nat) :
    ObjectRef × ObjectStore :=
  s.allocInstance Option.none po.bytes_type (ObjectContent.bytes b)

/-- `PrimitiveObjects::new_tuple`. -/
def ObjectStore.new_tuple (s : ObjectStore) (po : PrimitiveObjects) (v : List ObjectRef) :
    ObjectRef × ObjectStore :=
  s.allocInstance Option.none po.tuple_type (ObjectContent.tuple v)

/-- `PrimitiveObjects::new_list`. -/
def ObjectStore.new_list (s : ObjectStore) (po : PrimitiveObjects) (v : List ObjectRef) :
    ObjectRef × ObjectStore :=
  s.allocInstance Option.none po.list_type (ObjectContent.list v)

/-- `PrimitiveObjects::new_set`. -/
def ObjectStore.new_set (s : ObjectStore) (po : PrimitiveObjects) (v : List ObjectRef) :
    ObjectRef × ObjectStore :=
  s.allocInstance Option.none po.set_type (ObjectContent.set v)

/-- `PrimitiveObjects::new_frozenset`. -/
def ObjectStore.new_frozenset (s : ObjectStore) (po : PrimitiveObjects) (v : List ObjectRef) :
    ObjectRef × ObjectStore :=
  s.allocInstance Option.none po.frozenset_type (ObjectContent.frozenset v)

/-- `PrimitiveObjects::new_code`. -/
def ObjectStore.new_code (s : ObjectStore) (po : PrimitiveObjects) (c : Code) :
    ObjectRef × ObjectStore :=
  s.allocInstance Option.none po.code_type (ObjectContent.code c)

/-- Modelled from the spec: `PrimitiveObjects::new_dict` is called by the
final `processor/mod.rs` but its body is in a newer `objects/mod.rs` not
under `src/`; per the factory-helper contract (spec section 4.2) it builds
an instance pre-tagged with the correct class. -/
def ObjectStore.new_dict (s : ObjectStore) (po : PrimitiveObjects)
    (v : List (ObjectRef × ObjectRef)) : ObjectRef × ObjectStore :=
  s.allocInstance Option.none po.object (ObjectContent.dict v)

/-- `UnmarshalError` from `marshal/decode.rs` (error payloads that carry
foreign types, the `io::Error` and `FromUtf8Error`, are dropped). -/
inductive UnmarshalError where
  | io : UnmarshalError
  | decoding : UnmarshalError
  | unexpectedCode : String → UnmarshalError
  | invalidReference : UnmarshalError
deriving DecidableEq

/-- `ProcessorError` from `processor/mod.rs`. -/
inductive ProcessorError where
  | circularReference : ProcessorError
  | invalidReference : ProcessorError
  | notACodeObject : String → ProcessorError
  | notAFunctionObject : String → ProcessorError
  | codeObjectIsNotBytes : ProcessorError
  | invalidProgramCounter : ProcessorError
  | stackTooSmall : ProcessorError
  | invalidConstIndex : ProcessorError
  | invalidName : String → ProcessorError
  | invalidNameIndex : ProcessorError
  | invalidVarnameIndex : ProcessorError
  | unknownPrimitive : String → ProcessorError
  | unmarshalError : UnmarshalError → ProcessorError
  | invalidModuleName : String → ProcessorError
deriving DecidableEq

/-- The distinct process-aborting panics of the embedded code. An
`Except.error` carrying one of these models the Rust process aborting. -/
inductive VMPanic where
  | derefUnknownRef : VMPanic
  | exceptionReachedBottom : VMPanic
  | containerChanged : VMPanic
  | iteratorUnsupported : VMPanic
  | primitiveBadArgs : VMPanic
  | argumentCount : VMPanic
  | assertionFailed : VMPanic
  | keywordNotString : VMPanic
  | unknownKeywordArgument : VMPanic
  | notAModule : VMPanic
  | emptyCallStack : VMPanic
  | processorError : ProcessorError → VMPanic
deriving DecidableEq

/-- `Block` from `processor/frame.rs` in its final design (spec section 3:
`Loop(begin,end) | TryExcept(begin,end) | ExceptPopGoto(exception-pattern,
pop-count, target)`); the `frame.rs` snapshot under `src/` predates the
`ExceptPopGoto` variant that `state.rs::unwind` matches on. -/
inductive Block where
  | loop : Nat → Nat → Block
  | tryExcept : Nat → Nat → Block
  | exceptPopGoto : ObjectRef → Nat → Nat → Block
deriving DecidableEq

/-- `Frame` from `processor/frame.rs`. The operand stack and block stack are
lists whose head is the top (`Vec` push/pop at the end). The decoded
instruction cache (recomputable from `code.code`) is omitted, and the
`Rc<RefCell<...>>` sharing of `locals` is modelled by value: no embedded
claim observes aliasing of locals. -/
structure Frame where
  object : ObjectRef
  var_stack : List ObjectRef
  block_stack : List Block
  locals : List (String × ObjectRef)
  code : Code
  program_counter : Nat
deriving DecidableEq

/-- `Frame::new`. -/
def Frame.new (object : ObjectRef) (code : Code) (locals : List (String × ObjectRef)) : Frame :=
  { object := object, var_stack := [], block_stack := [], locals := locals,
    code := code, program_counter := 0 }

/-- `State` from `state.rs`. The `envproxy` collaborator is out of scope
(spec section 1); the `primitive_functions` registry is modelled by its key
set, since dispatch is by name (spec section 9). -/
structure State where
  store : ObjectStore
  primitive_functions : List String
  primitive_objects : PrimitiveObjects
  modules : List (String × List (String × ObjectRef))
deriving DecidableEq

/-- The keys of `get_default_primitives` from `primitives/mod.rs`. -/
def get_default_primitives : List String :=
  ["write_stdout", "build_class", "issubclass", "isinstance", "iter"]

/-- Sum of the bases-list lengths of the entries of an association list whose
keys are not yet visited; the termination potential of the `issubclass` walk. -/
def listPotential (visited : List ObjectRef) : List (Nat × Object) → Nat
  | [] => 0
  | p :: rest =>
    (if p.1 ∈ visited then 0 else (p.2.bases.getD []).length) + listPotential visited rest

/-- Potential of a store with respect to a visited set. -/
def storePotential (store : ObjectStore) (visited : List ObjectRef) : Nat :=
  listPotential visited store.objects

theorem listPotential_mono (c : ObjectRef) (visited : List ObjectRef)
    (l : List (Nat × Object)) : listPotential (c :: visited) l ≤ listPotential visited l := by
  induction l with
  | nil => simp [listPotential]
  | cons p rest ih =>
    simp only [listPotential]
    by_cases h2 : p.1 ∈ visited
    · have h1 : p.1 ∈ c :: visited := List.mem_cons_of_mem _ h2
      simp only [h1, h2, if_true]
      omega
    · by_cases h1 : p.1 ∈ c :: visited
      · simp only [h1, h2, if_true, if_false]
        omega
      · simp only [h1, h2, if_false]
        omega

theorem listPotential_lookup (c : ObjectRef) (o : Object) (visited : List ObjectRef)
    (l : List (Nat × Object)) (hv : c ∉ visited) (hl : l.lookup c = some o) :
    (o.bases.getD []).length + listPotential (c :: visited) l ≤ listPotential visited l := by
  induction l with
  | nil => simp [List.lookup] at hl
  | cons p rest ih =>
    rcases p with ⟨k, o2⟩
    simp only [List.lookup] at hl
    by_cases hk : c = k
    · subst hk
      simp only [beq_self_eq_true] at hl
      injection hl with hl
      subst hl
      simp only [listPotential]
      have h1 : (c ∈ c :: visited) := List.mem_cons_self _ _
      simp only [h1, hv, if_true, if_false]
      have := listPotential_mono c visited rest
      omega
    · have hbeq : (c == k) = false := by simp [hk]
      rw [hbeq] at hl
      simp only [Bool.false_eq_true, if_false] at hl
      have := ih hl
      simp only [listPotential]
      by_cases h2 : k ∈ visited
      · have h1 : k ∈ c :: visited := List.mem_cons_of_mem _ h2
        simp only [h1, h2, if_true]
        omega
      · have h1 : k ∉ (c :: visited) := by
          simp only [List.mem_cons]
          push_neg
          exact ⟨fun h => hk h.symm, h2⟩
        simp only [h1, h2, if_false]
        omega

/-- The body of `native_issubclass` from `primitives/mod.rs`: breadth-first
walk of the `bases` graph with a visited set (the Rust `to_visit` queue and
`visited` `HashSet`); `candidate.is(second)` is tested on each newly visited
candidate, and the bases of the candidate are enqueued. -/
def issubclass_loop (store : ObjectStore) (second : ObjectRef)
    (visited : List ObjectRef) (queue : List ObjectRef) : Except VMPanic Bool :=
  match queue with
  | [] => Except.ok false
  | candidate :: rest =>
    if hv : candidate ∈ visited then
      issubclass_loop store second visited rest
    else if candidate = second then
      Except.ok true
    else
      match hl : store.lookup candidate with
      | Option.none => Except.error VMPanic.derefUnknownRef
      | some o =>
        match hb : o.bases with
        | Option.none => issubclass_loop store second (candidate :: visited) rest
        | some bases => issubclass_loop store second (candidate :: visited) (rest ++ bases)
termination_by storePotential store visited + queue.length
decreasing_by
  · simp only [List.length_cons]
    omega
  · have := listPotential_mono candidate visited store.objects
    simp only [storePotential, List.length_cons]
    omega
  · have hpot := listPotential_lookup candidate o visited store.objects hv hl
    rw [hb] at hpot
    simp only [Option.getD] at hpot
    simp only [storePotential, List.length_append, List.length_cons]
    omega

/-- `native_issubclass` from `primitives/mod.rs`. -/
def native_issubclass (store : ObjectStore) (first second : ObjectRef) : Except VMPanic Bool :=
  issubclass_loop store second [] [first]

/-- `native_isinstance` from `primitives/mod.rs`: `issubclass` on the class
of `first`. -/
def native_isinstance (store : ObjectStore) (first second : ObjectRef) : Except VMPanic Bool :=
  match store.lookup first with
  | Option.none => Except.error VMPanic.derefUnknownRef
  | some o => native_issubclass store o.class_ second

/-- `VectorVarStack::pop_many` from `varstack.rs`: `none` if fewer than
`count` items; otherwise the drained chunk (in vector order, i.e. bottom
first) and the remaining stack. -/
def VarStack.pop_many (count : Nat) (vs : List ObjectRef) :
    Option (List ObjectRef × List ObjectRef) :=
  if count ≤ vs.length then some ((vs.take count).reverse, vs.drop count) else Option.none

/-- `ObjectRef::module` from `objects/mod.rs`: the defining module of a
function, or the name of a module; anything else panics (a single panic
constructor also models the `unwrap` of a nameless module). -/
def ObjectRef.module (store : ObjectStore) (r : ObjectRef) : Except VMPanic String :=
  match store.lookup r with
  | Option.none => Except.error VMPanic.derefUnknownRef
  | some func =>
    match func.content with
    | ObjectContent.function module_name _ _ => Except.ok module_name
    | ObjectContent.module _ =>
      match func.name with
      | some n => Except.ok n
      | Option.none => Except.error VMPanic.notAModule
    | _ => Except.error VMPanic.notAModule

/-- The `while let Some(block) = frame.block_stack.pop()` loop inside
`state.rs::unwind`, operating on the frame fields it mutates (block stack,
operand stack, program counter): `ok none` when the block stack is
exhausted with no handler, `ok (some (bs, vs, pc))` when a handler stops
the loop with those updated fields. -/
def unwind_block_stack (store : ObjectStore) (traceback exception value : ObjectRef) :
    List Block → List ObjectRef → Nat →
    Except VMPanic (Option (List Block × List ObjectRef × Nat))
  | [], _, _ => Except.ok Option.none
  | block :: rest, var_stack, pc =>
    match block with
    | Block.loop _ _ =>
      unwind_block_stack store traceback exception value rest var_stack pc
    | Block.tryExcept b e =>
      Except.ok (some (Block.tryExcept b e :: rest,
        exception :: value :: traceback :: exception :: value :: traceback :: var_stack, e))
    | Block.exceptPopGoto pattern nb_pop target =>
      match native_isinstance store exception pattern with
      | Except.error p => Except.error p
      | Except.ok true =>
        Except.ok (some (rest,
          (match VarStack.pop_many nb_pop var_stack with
           | some p => p.2
           | Option.none => var_stack), target))
      | Except.ok false =>
        unwind_block_stack store traceback exception value rest var_stack pc

/-- One popped frame of `state.rs::unwind`: run the block-stack loop and
write the mutated fields back into the frame that will be pushed back. -/
def unwind_frame (store : ObjectStore) (traceback exception value : ObjectRef) (frame : Frame) :
    Except VMPanic (Option Frame) :=
  (unwind_block_stack store traceback exception value frame.block_stack frame.var_stack
    frame.program_counter).map (Option.map (fun r =>
      { frame with block_stack := r.1, var_stack := r.2.1, program_counter := r.2.2 }))

/-- `unwind` from `state.rs`: pop frames from the innermost end of the call
stack until one of them yields a handler; reaching the bottom is the fatal
"Exception reached bottom of call stack" panic. The `exc_type` pushed by
the source is `exception.clone()`, i.e. the same `ObjectRef`. -/
def unwind (store : ObjectStore) (call_stack : List Frame)
    (traceback exception value : ObjectRef) : Except VMPanic (List Frame) :=
  match call_stack with
  | [] => Except.error VMPanic.exceptionReachedBottom
  | frame :: rest =>
    match unwind_frame store traceback exception value frame with
    | Except.error p => Except.error p
    | Except.ok (some f) => Except.ok (f :: rest)
    | Except.ok Option.none => unwind store rest traceback exception value

/-- `raise` from `state.rs`: allocate an instance of `exc_class` holding the
message, then unwind with `None` as traceback and value. -/
def raise (state : State) (call_stack : List Frame) (exc_class : ObjectRef) (msg : String) :
    Except VMPanic (State × List Frame) :=
  let (exc, store) := state.store.allocInstance Option.none exc_class (ObjectContent.string msg)
  let state := { state with store := store }
  let traceback := state.primitive_objects.none
  let value := state.primitive_objects.none
  (unwind state.store call_stack traceback exc value).map (fun cs => (state, cs))

/-- `return_value` from `state.rs`: push the result on the parent frame, or
do nothing at the end of the program. -/
def return_value (call_stack : List Frame) (result : ObjectRef) : List Frame :=
  match call_stack with
  | [] => []
  | parent :: rest => { parent with var_stack := result :: parent.var_stack } :: rest

/-- `load_name` from `processor/mod.rs`: the two synthetic names first (each
allocating a fresh object), then the frame locals, then the `builtins`
module dict, then the dict of the frame's own module. -/
def load_name (state : State) (frame : Frame) (name : String) :
    Except VMPanic (Option ObjectRef × State) :=
  if name = "__primitives__" then
    let (r, store) := state.store.allocInstance (some "__primitives__")
      state.primitive_objects.object ObjectContent.primitiveNamespace
    Except.ok (some r, { state with store := store })
  else if name = "__name__" then
    let (r, store) := state.store.new_string state.primitive_objects "<module>"
    Except.ok (some r, { state with store := store })
  else
    match frame.locals.lookup name with
    | some r => Except.ok (some r, state)
    | Option.none =>
      match (state.modules.lookup "builtins").bind (fun m => m.lookup name) with
      | some r => Except.ok (some r, state)
      | Option.none =>
        match ObjectRef.module state.store frame.object with
        | Except.error p => Except.error p
        | Except.ok mod_name =>
          match (state.modules.lookup mod_name).bind (fun m => m.lookup name) with
          | some r => Except.ok (some r, state)
          | Option.none => Except.ok (Option.none, state)

/-- The `LoadName`/`LoadGlobal` arm of `run_code` (processor/mod.rs): fetch
the name at index `i` of the current frame's name table (an invalid index is
an aborting processor error), call `load_name`, and either push the result
or raise a `NameError`. The instruction fetch and program-counter increment
of the dispatch loop happen before this arm. -/
def run_load_name (state : State) (call_stack : List Frame) (i : Nat) :
    Except VMPanic (State × List Frame) :=
  match call_stack with
  | [] => Except.error VMPanic.emptyCallStack
  | frame :: rest =>
    match frame.code.names.get? i with
    | Option.none => Except.error (VMPanic.processorError ProcessorError.invalidNameIndex)
    | some name =>
      match load_name state frame name with
      | Except.error p => Except.error p
      | Except.ok (res, state) =>
        match res with
        | Option.none =>
          raise state (frame :: rest) state.primitive_objects.nameerror
            ("Unknown variable " ++ name)
        | some obj_ref =>
          Except.ok (state, { frame with var_stack := obj_ref :: frame.var_stack } :: rest)

/-- `State::raise_processor_error` from `state.rs`: unconditionally panics
("Runtime Error"), never entering the unwinding protocol. -/
def State.raise_processor_error (error : ProcessorError) : Except VMPanic (State × List Frame) :=
  Except.error (VMPanic.processorError error)

/-- Modelled from the spec: `Code::get_varargs_name` is called by the final
`processor/mod.rs` but defined in a newer `objects/mod.rs` not under `src/`.
Spec section 3: flag bit 2 means the code accepts variadic positionals;
section 4.4: the excess positionals bind to the trailing parameter name
(which, in the CPython varnames layout, sits after the declared positional
and keyword-only parameters). -/
def Code.get_varargs_name (c : Code) : Option String :=
  if c.co_varargs then c.varnames.get? (c.argcount + c.kwonlyargcount) else Option.none

/-- Modelled from the spec (section 4.4): whether the code accepts a
variadic keyword mapping (CPython flag bit 3). -/
def Code.co_varkwargs (c : Code) : Bool := c.flags &&& 0x8 != 0

/-- Modelled from the spec: the name of the variadic keyword parameter, the
parameter after the positional, keyword-only and (if any) variadic
positional ones. -/
def Code.get_varkwargs_name (c : Code) : Option String :=
  if c.co_varkwargs then
    c.varnames.get? (c.argcount + c.kwonlyargcount + (if c.co_varargs then 1 else 0))
  else Option.none

/-- Modelled from the spec (section 4.4): the declared parameter names a
keyword argument may bind to directly. -/
def Code.keywords (c : Code) : List String :=
  c.varnames.take (c.argcount + c.kwonlyargcount)

/-- The keyword-argument loop of `call_function`: bind keywords that match
declared parameter names into the locals, collect the rest (in order) for a
possible `**kwargs`; a non-string key panics. -/
def bind_kwargs (store : ObjectStore) (keywords : List String) :
    List (ObjectRef × ObjectRef) → List (String × ObjectRef) →
    Except VMPanic (List (String × ObjectRef) × List (ObjectRef × ObjectRef))
  | [], locals => Except.ok (locals, [])
  | (key, value) :: rest, locals =>
    match store.lookup key with
    | Option.none => Except.error VMPanic.derefUnknownRef
    | some ko =>
      match ko.content with
      | ObjectContent.string s =>
        if s ∈ keywords then
          bind_kwargs store keywords rest (AList.insert s value locals)
        else
          (bind_kwargs store keywords rest locals).map (fun p => (p.1, (key, value) :: p.2))
      | _ => Except.error VMPanic.keywordNotString

/-- The positional-binding loop of `call_function`:
`code.varnames.iter().zip(args)` inserted into the locals. -/
def bind_positional : List String → List ObjectRef → List (String × ObjectRef) →
    List (String × ObjectRef)
  | argname :: ns, argvalue :: vs, locals =>
    bind_positional ns vs (AList.insert argname argvalue locals)
  | _, _, locals => locals

/-- Result of `call_function`: either the mutated state and call stack, or a
defunctionalized invocation of the named primitive (the Rust code calls the
function pointer found in the string-keyed registry; spec section 9). -/
inductive CallOutcome where
  | normal : State → List Frame → CallOutcome
  | invokePrimitive : String → State → List Frame → List ObjectRef → CallOutcome
deriving DecidableEq

/-- `call_function` from `processor/mod.rs`. The `Class` branch's
`new_instance` (a bare instance of the called class; class bodies are a
no-op stub, spec section 9) and the keyword/varargs helpers are modelled
from the spec where the newer `objects/mod.rs` is not under `src/`. -/
def call_function (state : State) (call_stack : List Frame) (func_ref : ObjectRef)
    (args : List ObjectRef) (kwargs : List (ObjectRef × ObjectRef)) :
    Except VMPanic CallOutcome :=
  match state.store.lookup func_ref with
  | Option.none => Except.error VMPanic.derefUnknownRef
  | some funco =>
    match funco.content with
    | ObjectContent.class_ _ =>
      match call_stack with
      | [] => Except.error VMPanic.emptyCallStack
      | frame :: rest =>
        let (inst, store) := state.store.allocInstance Option.none func_ref
          ObjectContent.otherObject
        Except.ok (CallOutcome.normal { state with store := store }
          ({ frame with var_stack := inst :: frame.var_stack } :: rest))
    | ObjectContent.function _func_module code_ref defaults =>
      match state.store.lookup code_ref with
      | Option.none => Except.error VMPanic.derefUnknownRef
      | some codeo =>
        match codeo.content with
        | ObjectContent.code code => do
          let locals := defaults
          let (state, args, locals) ←
            match code.get_varargs_name with
            | some starargs_name =>
              if code.argcount > args.length then
                Except.error VMPanic.argumentCount
              else
                let to_vararg := args.drop code.argcount
                let args := args.take code.argcount
                let (obj_ref, store) := state.store.new_tuple state.primitive_objects to_vararg
                if (locals.lookup starargs_name).isSome then
                  Except.error VMPanic.assertionFailed
                else
                  Except.ok ({ state with store := store }, args,
                    AList.insert starargs_name obj_ref locals)
            | Option.none =>
              if code.argcount ≠ args.length then
                Except.error VMPanic.argumentCount
              else
                Except.ok (state, args, locals)
          let (locals, remaining_kwargs) ← bind_kwargs state.store code.keywords kwargs locals
          let (state, locals) ←
            match code.get_varkwargs_name with
            | some starkwargs_name =>
              let (obj_ref, store) := state.store.new_dict state.primitive_objects remaining_kwargs
              Except.ok ({ state with store := store },
                AList.insert starkwargs_name obj_ref locals)
            | Option.none =>
              if remaining_kwargs.length ≠ 0 then
                Except.error VMPanic.unknownKeywordArgument
              else
                Except.ok (state, locals)
          let locals := bind_positional code.varnames args locals
          pure (CallOutcome.normal state (Frame.new func_ref code locals :: call_stack))
        | _ =>
          (raise state call_stack state.primitive_objects.processorerror "Not a code object").map
            (fun p => CallOutcome.normal p.1 p.2)
    | ObjectContent.primitiveFunction name =>
      if name ∈ state.primitive_functions then
        Except.ok (CallOutcome.invokePrimitive name state call_stack args)
      else
        (raise state call_stack state.primitive_objects.baseexception
          ("Unknown primitive " ++ name)).map (fun p => CallOutcome.normal p.1 p.2)
    | _ =>
      (raise state call_stack state.primitive_objects.typeerror "Not a function object").map
        (fun p => CallOutcome.normal p.1 p.2)

/-- `iter` from `primitives/mod.rs`: one step of a `RandomAccessIterator`.
A container-version mismatch is the "Container changed while iterating"
panic; an exhausted index raises `StopIteration`; otherwise the element is
returned to the caller and the iterator index advances by one (through
`deref_mut`, leaving the iterator object version unchanged). -/
def iter (state : State) (call_stack : List Frame) (args : List ObjectRef) :
    Except VMPanic (State × List Frame) :=
  if args.length ≠ 1 then Except.error VMPanic.primitiveBadArgs
  else
    match args.getLast? with
    | Option.none => Except.error VMPanic.primitiveBadArgs
    | some iterator_ref =>
      match state.store.lookup iterator_ref with
      | Option.none => Except.error VMPanic.derefUnknownRef
      | some iterator =>
        match iterator.content with
        | ObjectContent.randomAccessIterator container_ref index container_version =>
          match state.store.lookup container_ref with
          | Option.none => Except.error VMPanic.derefUnknownRef
          | some container =>
            if container.version ≠ container_version then
              Except.error VMPanic.containerChanged
            else
              match container.content with
              | ObjectContent.list v | ObjectContent.tuple v =>
                match v.get? index with
                | some value =>
                  let store := state.store.set iterator_ref
                    { iterator with content := (ObjectContent.randomAccessIterator
                        container_ref (index + 1) container_version) }
                  Except.ok ({ state with store := store }, return_value call_stack value)
                | Option.none =>
                  raise state call_stack state.primitive_objects.stopiteration
                    "StopIteration instance"
              | _ => Except.error VMPanic.iteratorUnsupported
        | _ =>
          let (exc, store) := state.store.allocInstance Option.none
            state.primitive_objects.typeerror ObjectContent.otherObject
          raise { state with store := store } call_stack exc "is not an iterator"

/-- Failure of the marshal decoder: either a returned `UnmarshalError`, or
one of the decoder's panics (which abort the process and are distinct from
returned errors). `outOfFuel` is an artifact of the embedding: the fuel
bounds the recursion depth, and the root wrapper supplies more fuel than
any input can consume. -/
inductive DecodeFailure where
  | err : UnmarshalError → DecodeFailure
  | assertFailed : DecodeFailure
  | unsupportedOpcode : DecodeFailure
  | alreadyAllocated : DecodeFailure
  | derefPanic : DecodeFailure
  | derefCheckFailed : DecodeFailure
  | outOfFuel : DecodeFailure
deriving DecidableEq

/-- The `read_byte!` macro of `marshal/decode.rs`: one byte or an I/O error. -/
def read_byte (input : List Nat) : Except DecodeFailure (Nat × List Nat) :=
  match input with
  | [] => Except.error (DecodeFailure.err UnmarshalError.io)
  | b :: rest => Except.ok (b, rest)

/-- `read_long` from `marshal/decode.rs`: a little-endian u32. -/
def read_long (input : List Nat) : Except DecodeFailure (Nat × List Nat) :=
  match input with
  | b0 :: b1 :: b2 :: b3 :: rest =>
    Except.ok (b0 + 256 * (b1 + 256 * (b2 + 256 * b3)), rest)
  | _ => Except.error (DecodeFailure.err UnmarshalError.io)

/-- `Read::read_exact` into a buffer of `size` bytes. -/
def read_exact (size : Nat) (input : List Nat) :
    Except DecodeFailure (List Nat × List Nat) :=
  if size ≤ input.length then Except.ok (input.take size, input.drop size)
  else Except.error (DecodeFailure.err UnmarshalError.io)

/-- `read_ascii_string` from `marshal/decode.rs`: each byte reinterpreted as
a character (`c as char` on a `u8` is the codepoint of the byte value). -/
def read_ascii_string (input : List Nat) (size : Nat) :
    Except DecodeFailure (String × List Nat) :=
  (read_exact size input).map (fun p => (String.mk (p.1.map Char.ofNat), p.2))

/-- `read_unicode_string` from `marshal/decode.rs`: UTF-8 decoding, with an
invalid sequence becoming the `Decoding` error. -/
def read_unicode_string (input : List Nat) (size : Nat) :
    Except DecodeFailure (String × List Nat) :=
  match read_exact size input with
  | Except.error e => Except.error e
  | Except.ok (buf, rest) =>
    match String.fromUTF8? (ByteArray.mk (Array.mk (buf.map (fun n => UInt8.ofNat n)))) with
    | Option.none => Except.error (DecodeFailure.err UnmarshalError.decoding)
    | some s => Except.ok (s, rest)

/-- The `deref_checktype!(Bytes, ...)` pattern of `marshal/decode.rs`. -/
def deref_bytes (store : ObjectStore) (r : ObjectRef) : Except DecodeFailure (List Nat) :=
  match store.lookup r with
  | Option.none => Except.error DecodeFailure.derefPanic
  | some o =>
    match o.content with
    | ObjectContent.bytes v => Except.ok v
    | _ => Except.error DecodeFailure.derefCheckFailed

/-- The `deref_checktype!(Tuple, ...)` pattern. -/
def deref_tuple (store : ObjectStore) (r : ObjectRef) :
    Except DecodeFailure (List ObjectRef) :=
  match store.lookup r with
  | Option.none => Except.error DecodeFailure.derefPanic
  | some o =>
    match o.content with
    | ObjectContent.tuple v => Except.ok v
    | _ => Except.error DecodeFailure.derefCheckFailed

/-- The `deref_checktype!(String, ...)` pattern. -/
def deref_string (store : ObjectStore) (r : ObjectRef) : Except DecodeFailure String :=
  match store.lookup r with
  | Option.none => Except.error DecodeFailure.derefPanic
  | some o =>
    match o.content with
    | ObjectContent.string s => Except.ok s
    | _ => Except.error DecodeFailure.derefCheckFailed

/-- The element loop of `deref_checktype!(Tuple<String>, ...)`. -/
def deref_strings (store : ObjectStore) : List ObjectRef → Except DecodeFailure (List String)
  | [] => Except.ok []
  | r :: rest => do
    let s ← deref_string store r
    let ss ← deref_strings store rest
    pure (s :: ss)

/-- The `deref_checktype!(Tuple<ObjectContent::String>, ...)` pattern. -/
def deref_tuple_strings (store : ObjectStore) (r : ObjectRef) :
    Except DecodeFailure (List String) := do
  let v ← deref_tuple store r
  deref_strings store v

mutual

/-- `read_object` from `marshal/decode.rs`: decode one marshalled value,
whose type is selected by the low 7 bits of the first byte (high bit =
record in the back-reference table). The back-reference table grows at the
end (`Vec::push`); an out-of-range back-reference index fails the `assert!`
(a panic, not a returned error). The fuel only bounds recursion depth. -/
def read_object (fuel : Nat) (po : PrimitiveObjects) (input : List Nat)
    (store : ObjectStore) (references : List ObjectRef) :
    Except DecodeFailure (ObjectRef × List Nat × ObjectStore × List ObjectRef) :=
  match fuel with
  | 0 => Except.error DecodeFailure.outOfFuel
  | fuel + 1 => do
    let (byte, input) ← read_byte input
    let flag := byte &&& 0x80 != 0
    let opcode := byte &&& 0x7f
    if opcode = 48 then -- tag 0: NULL
      Except.error (DecodeFailure.err
        (UnmarshalError.unexpectedCode "NULL object in marshal data for object"))
    else if opcode = 78 then -- tag N: None
      Except.ok (po.none, input, store, references)
    else if opcode = 70 then -- tag F: False
      Except.ok (po.false_obj, input, store, references)
    else if opcode = 84 then -- tag T: True
      Except.ok (po.true_obj, input, store, references)
    else if opcode = 105 then -- tag i: int
      let (n, input) ← read_long input
      let (obj_ref, store) := store.new_int po n
      let references := if flag then references ++ [obj_ref] else references
      Except.ok (obj_ref, input, store, references)
    else if opcode = 122 ∨ opcode = 90 then -- tags z and Z: short ascii
      let (size, input) ← read_byte input
      let (s, input) ← read_ascii_string input size
      let (obj_ref, store) := store.new_string po s
      let references := if flag then references ++ [obj_ref] else references
      Except.ok (obj_ref, input, store, references)
    else if opcode = 117 then -- tag u: unicode
      let (size, input) ← read_long input
      let (s, input) ← read_unicode_string input size
      let (obj_ref, store) := store.new_string po s
      let references := if flag then references ++ [obj_ref] else references
      Except.ok (obj_ref, input, store, references)
    else if opcode = 115 then -- tag s: bytes
      let (size, input) ← read_long input
      let (buf, input) ← read_exact size input
      let (obj_ref, store) := store.new_bytes po buf
      let references := if flag then references ++ [obj_ref] else references
      Except.ok (obj_ref, input, store, references)
    else if opcode = 41 then -- tag ): small tuple
      let (size, input) ← read_byte input
      if flag then
        let (obj_ref, store) := store.newRef
        let references := references ++ [obj_ref]
        let (objects, input, store, references) ←
          read_objects fuel po input store references size
        match store.allocate_at obj_ref
            (Object.new_instance store.nextVersion Option.none po.tuple_type
              (ObjectContent.tuple objects)) with
        | Option.none => Except.error DecodeFailure.alreadyAllocated
        | some store =>
          Except.ok (obj_ref, input, { store with nextVersion := store.nextVersion + 1 },
            references)
      else
        let (objects, input, store, references) ←
          read_objects fuel po input store references size
        let (obj_ref, store) := store.new_tuple po objects
        Except.ok (obj_ref, input, store, references)
    else if opcode = 40 then -- tag (: tuple
      let (size, input) ← read_long input
      if flag then
        let (obj_ref, store) := store.newRef
        let references := references ++ [obj_ref]
        let (objects, input, store, references) ←
          read_objects fuel po input store references size
        match store.allocate_at obj_ref
            (Object.new_instance store.nextVersion Option.none po.tuple_type
              (ObjectContent.tuple objects)) with
        | Option.none => Except.error DecodeFailure.alreadyAllocated
        | some store =>
          Except.ok (obj_ref, input, { store with nextVersion := store.nextVersion + 1 },
            references)
      else
        let (objects, input, store, references) ←
          read_objects fuel po input store references size
        let (obj_ref, store) := store.new_tuple po objects
        Except.ok (obj_ref, input, store, references)
    else if opcode = 91 then -- tag [: list
      let (size, input) ← read_long input
      if flag then
        let (obj_ref, store) := store.newRef
        let references := references ++ [obj_ref]
        let (objects, input, store, references) ←
          read_objects fuel po input store references size
        match store.allocate_at obj_ref
            (Object.new_instance store.nextVersion Option.none po.list_type
              (ObjectContent.list objects)) with
        | Option.none => Except.error DecodeFailure.alreadyAllocated
        | some store =>
          Except.ok (obj_ref, input, { store with nextVersion := store.nextVersion + 1 },
            references)
      else
        let (objects, input, store, references) ←
          read_objects fuel po input store references size
        let (obj_ref, store) := store.new_list po objects
        Except.ok (obj_ref, input, store, references)
    else if opcode = 60 then -- tag <: set
      let (size, input) ← read_long input
      if flag then
        let (obj_ref, store) := store.newRef
        let references := references ++ [obj_ref]
        let (objects, input, store, references) ←
          read_objects fuel po input store references size
        match store.allocate_at obj_ref
            (Object.new_instance store.nextVersion Option.none po.set_type
              (ObjectContent.set objects)) with
        | Option.none => Except.error DecodeFailure.alreadyAllocated
        | some store =>
          Except.ok (obj_ref, input, { store with nextVersion := store.nextVersion + 1 },
            references)
      else
        let (objects, input, store, references) ←
          read_objects fuel po input store references size
        let (obj_ref, store) := store.new_set po objects
        Except.ok (obj_ref, input, store, references)
    else if opcode = 62 then -- tag >: frozenset, never back-referenced
      let (size, input) ← read_long input
      let (objects, input, store, references) ←
        read_objects fuel po input store references size
      let (obj_ref, store) := store.new_frozenset po objects
      Except.ok (obj_ref, input, store, references)
    else if opcode = 114 then -- tag r: back-reference
      let (index, input) ← read_long input
      if h : index < references.length then
        Except.ok (references.get ⟨index, h⟩, input, store, references)
      else
        Except.error DecodeFailure.assertFailed
    else if opcode = 99 then -- tag c: code object
      let (allocateAt, store, references) :=
        if flag then
          let (obj_ref, store) := store.newRef
          (some obj_ref, store, references ++ [obj_ref])
        else (Option.none, store, references)
      let (argcount, input) ← read_long input
      let (kwonlyargcount, input) ← read_long input
      let (nlocals, input) ← read_long input
      let (stacksize, input) ← read_long input
      let (flags, input) ← read_long input
      let (codeRef, input, store, references) ← read_object fuel po input store references
      let (constsRef, input, store, references) ← read_object fuel po input store references
      let (namesRef, input, store, references) ← read_object fuel po input store references
      let (varnamesRef, input, store, references) ← read_object fuel po input store references
      let (freevarsRef, input, store, references) ← read_object fuel po input store references
      let (cellvarsRef, input, store, references) ← read_object fuel po input store references
      let (filenameRef, input, store, references) ← read_object fuel po input store references
      let (nameRef, input, store, references) ← read_object fuel po input store references
      let (firstlineno, input) ← read_long input
      let (lnotab, input, store, references) ← read_object fuel po input store references
      let codeBytes ← deref_bytes store codeRef
      let consts ← deref_tuple store constsRef
      let names ← deref_tuple_strings store namesRef
      let varnames ← deref_tuple_strings store varnamesRef
      let freevars ← deref_tuple store freevarsRef
      let cellvars ← deref_tuple store cellvarsRef
      let filename ← deref_string store filenameRef
      let name ← deref_string store nameRef
      let code : Code :=
        { argcount := argcount, kwonlyargcount := kwonlyargcount, nlocals := nlocals,
          stacksize := stacksize, flags := flags, code := codeBytes, consts := consts,
          names := names, varnames := varnames, freevars := freevars, cellvars := cellvars,
          filename := filename, name := name, firstlineno := firstlineno, lnotab := lnotab }
      match allocateAt with
      | Option.none =>
        let (obj_ref, store) := store.new_code po code
        Except.ok (obj_ref, input, store, references)
      | some obj_ref =>
        match store.allocate_at obj_ref
            (Object.new_instance store.nextVersion Option.none po.code_type
              (ObjectContent.code code)) with
        | Option.none => Except.error DecodeFailure.alreadyAllocated
        | some store =>
          Except.ok (obj_ref, input, { store with nextVersion := store.nextVersion + 1 },
            references)
    else
      Except.error DecodeFailure.unsupportedOpcode

/-- `read_objects` from `marshal/decode.rs`: `size` contiguous values. The
fuel is decremented here too so that the recursion is structural on it; the
root wrapper supplies enough for any input. -/
def read_objects (fuel : Nat) (po : PrimitiveObjects) (input : List Nat)
    (store : ObjectStore) (references : List ObjectRef) (size : Nat) :
    Except DecodeFailure (List ObjectRef × List Nat × ObjectStore × List ObjectRef) :=
  match fuel with
  | 0 => Except.error DecodeFailure.outOfFuel
  | fuel + 1 =>
    match size with
    | 0 => Except.ok ([], input, store, references)
    | size + 1 => do
      let (obj, input, store, references) ← read_object fuel po input store references
      let (objs, input, store, references) ← read_objects fuel po input store references size
      pure (obj :: objs, input, store, references)

end

/-- The public entry point of the decoder (`marshal::read_object`): a fresh
back-reference table, and enough fuel for any input of this length (every
fuel-consuming step either strips at least one input byte or starts an
element whose value strips at least one). -/
def read_object_root (po : PrimitiveObjects) (input : List Nat) (store : ObjectStore) :
    Except DecodeFailure (ObjectRef × List Nat × ObjectStore × List ObjectRef) :=
  read_object (2 * input.length + 2) po input store []

/-! ## Concrete fixtures -/

/-- A placeholder `PrimitiveObjects` (only used as the `getD` default of the
bootstrap below, which always succeeds on the empty store). -/
def PrimitiveObjects.dummy : PrimitiveObjects :=
  { object := 0, type_ := 0, none_type := 0, none := 0, int_type := 0, bool_type := 0,
    true_obj := 0, false_obj := 0, tuple_type := 0, list_type := 0, set_type := 0,
    frozenset_type := 0, bytes_type := 0, str_type := 0, iterator_type := 0,
    function_type := 0, code_type := 0, module := 0, baseexception := 0,
    processorerror := 0, exception := 0, nameerror := 0, attributeerror := 0,
    typeerror := 0, stopiteration := 0, lookuperror := 0, keyerror := 0, names_map := [] }

/-- The bootstrap registry and store of a fresh VM instance
(`PrimitiveObjects::new` on an empty store; it succeeds there). -/
def bootstrap : PrimitiveObjects × ObjectStore :=
  (PrimitiveObjects.new ObjectStore.new).getD (PrimitiveObjects.dummy, ObjectStore.new)

/-- An empty code object, for concrete frames in witnesses. -/
def emptyCode : Code :=
  { argcount := 0, kwonlyargcount := 0, nlocals := 0, stacksize := 0, flags := 0,
    code := [], consts := [], names := [], varnames := [], freevars := [], cellvars := [],
    filename := "", name := "", firstlineno := 0, lnotab := 0 }

/-! ## Unwinding lemmas -/

/-- A block that the unwinding of `exception` passes over without stopping:
a loop marker, or an `ExceptPopGoto` whose pattern the exception does not
match (so in particular `native_isinstance` does not panic on it). -/
def blockNoHandler (store : ObjectStore) (exception : ObjectRef) : Block → Bool
  | Block.loop _ _ => true
  | Block.tryExcept _ _ => false
  | Block.exceptPopGoto pattern _ _ =>
    match native_isinstance store exception pattern with
    | Except.ok false => true
    | _ => false

theorem unwind_frame_loop (store : ObjectStore) (tb exc val : ObjectRef) (f : Frame)
    (b e : Nat) (rest : List Block) (h : f.block_stack = Block.loop b e :: rest) :
    unwind_frame store tb exc val f =
      unwind_frame store tb exc val { f with block_stack := rest } := by
  simp [unwind_frame, h, unwind_block_stack]

theorem unwind_frame_tryExcept (store : ObjectStore) (tb exc val : ObjectRef) (f : Frame)
    (b e : Nat) (rest : List Block) (h : f.block_stack = Block.tryExcept b e :: rest) :
    unwind_frame store tb exc val f = Except.ok (some { f with
      block_stack := Block.tryExcept b e :: rest,
      program_counter := e,
      var_stack := exc :: val :: tb :: exc :: val :: tb :: f.var_stack }) := by
  simp [unwind_frame, h, unwind_block_stack, Except.map]

theorem unwind_block_stack_no_handler (store : ObjectStore) (tb exc val : ObjectRef) :
    ∀ (bs : List Block) (vs : List ObjectRef) (pc : Nat),
    (∀ blk ∈ bs, blockNoHandler store exc blk = true) →
    unwind_block_stack store tb exc val bs vs pc = Except.ok Option.none := by
  intro bs
  induction bs with
  | nil => intro vs pc _; rfl
  | cons blk rest ih =>
    intro vs pc hall
    have hblk : blockNoHandler store exc blk = true := hall blk (List.mem_cons_self _ _)
    have hrest : ∀ b ∈ rest, blockNoHandler store exc b = true :=
      fun b hb => hall b (List.mem_cons_of_mem _ hb)
    match blk with
    | Block.loop b e =>
      rw [unwind_block_stack]
      exact ih vs pc hrest
    | Block.tryExcept b e => simp [blockNoHandler] at hblk
    | Block.exceptPopGoto pattern nb_pop target =>
      rw [unwind_block_stack]
      simp only [blockNoHandler] at hblk
      revert hblk
      rcases native_isinstance store exc pattern with p | bv
      · intro hblk; simp at hblk
      · cases bv
        · intro _
          exact ih vs pc hrest
        · intro hblk; simp at hblk

theorem unwind_frame_no_handler (store : ObjectStore) (tb exc val : ObjectRef) (f : Frame)
    (hall : ∀ blk ∈ f.block_stack, blockNoHandler store exc blk = true) :
    unwind_frame store tb exc val f = Except.ok Option.none := by
  rw [unwind_frame, unwind_block_stack_no_handler store tb exc val f.block_stack f.var_stack
    f.program_counter hall]
  rfl

theorem unwind_cons_handled (store : ObjectStore) (tb exc val : ObjectRef) (f f2 : Frame)
    (rest : List Frame) (h : unwind_frame store tb exc val f = Except.ok (some f2)) :
    unwind store (f :: rest) tb exc val = Except.ok (f2 :: rest) := by
  rw [unwind, h]

theorem unwind_cons_exhausted (store : ObjectStore) (tb exc val : ObjectRef) (f : Frame)
    (rest : List Frame) (h : unwind_frame store tb exc val f = Except.ok Option.none) :
    unwind store (f :: rest) tb exc val = unwind store rest tb exc val := by
  rw [unwind, h]

theorem unwind_no_handler (store : ObjectStore) (tb exc val : ObjectRef) :
    ∀ call_stack : List Frame,
    (∀ fr ∈ call_stack, ∀ blk ∈ fr.block_stack, blockNoHandler store exc blk = true) →
    unwind store call_stack tb exc val = Except.error VMPanic.exceptionReachedBottom := by
  intro call_stack
  induction call_stack with
  | nil => intro _; rw [unwind]
  | cons f rest ih =>
    intro hall
    have hf : unwind_frame store tb exc val f = Except.ok Option.none :=
      unwind_frame_no_handler store tb exc val f (hall f (List.mem_cons_self _ _))
    rw [unwind_cons_exhausted store tb exc val f rest hf]
    exact ih (fun fr hfr => hall fr (List.mem_cons_of_mem _ hfr))

/-- C1: during `unwind` of a raised exception, frames are popped outward
from the innermost; `Loop` markers are discarded with no other effect; a
`TryExcept(begin, end)` marker is pushed back, the `(traceback, value,
type)` triple is pushed twice (six pushes, with the type slot holding the
`exception.clone()` ref) and the program counter is set to `end`; and if
every block stack is exhausted with no handler anywhere, unwinding is the
fatal bottom-of-call-stack panic rather than a normal return. -/
theorem C1_unwind_protocol :
    (∀ (store : ObjectStore) (tb exc val : ObjectRef) (f : Frame) (b e : Nat)
      (rest : List Block), f.block_stack = Block.loop b e :: rest →
      unwind_frame store tb exc val f =
        unwind_frame store tb exc val { f with block_stack := rest }) ∧
    (∀ (store : ObjectStore) (tb exc val : ObjectRef) (f : Frame) (b e : Nat)
      (rest : List Block), f.block_stack = Block.tryExcept b e :: rest →
      unwind_frame store tb exc val f = Except.ok (some { f with
        block_stack := Block.tryExcept b e :: rest,
        program_counter := e,
        var_stack := exc :: val :: tb :: exc :: val :: tb :: f.var_stack })) ∧
    (∀ (store : ObjectStore) (tb exc val : ObjectRef) (f f2 : Frame) (rest : List Frame),
      unwind_frame store tb exc val f = Except.ok (some f2) →
      unwind store (f :: rest) tb exc val = Except.ok (f2 :: rest)) ∧
    (∀ (store : ObjectStore) (tb exc val : ObjectRef) (f : Frame) (rest : List Frame),
      unwind_frame store tb exc val f = Except.ok Option.none →
      unwind store (f :: rest) tb exc val = unwind store rest tb exc val) ∧
    (∀ (store : ObjectStore) (tb exc val : ObjectRef) (call_stack : List Frame),
      (∀ fr ∈ call_stack, ∀ blk ∈ fr.block_stack, blockNoHandler store exc blk = true) →
      unwind store call_stack tb exc val = Except.error VMPanic.exceptionReachedBottom) :=
  ⟨unwind_frame_loop, unwind_frame_tryExcept, unwind_cons_handled,
   unwind_cons_exhausted, unwind_no_handler⟩

/-- Witness for C1: a two-frame call stack whose block stacks hold only
loop markers unwinds to the fatal bottom-of-call-stack panic. -/
theorem C1_unwind_protocol_witness :
    unwind ObjectStore.new
      [{ object := 0, var_stack := [7], locals := [], code := emptyCode, program_counter := 2,
         block_stack := [Block.loop 0 9, Block.loop 1 4] },
       { object := 1, var_stack := [], locals := [], code := emptyCode, program_counter := 5,
         block_stack := [] }]
      0 5 0 = Except.error VMPanic.exceptionReachedBottom :=
  C1_unwind_protocol.2.2.2.2 ObjectStore.new 0 5 0 _ (by decide)

/-! ## Marshal decoder claims -/

theorem AList.lookup_insert {α β : Type} [BEq α] [LawfulBEq α] (k : α) (v : β)
    (l : List (α × β)) : (AList.insert k v l).lookup k = some v := by
  induction l with
  | nil => simp [AList.insert, List.lookup]
  | cons p rest ih =>
    rcases p with ⟨k2, v2⟩
    simp only [AList.insert]
    by_cases h : k = k2
    · simp [h, List.lookup]
    · have hb : (k == k2) = false := by simp [h]
      simp only [hb, Bool.false_eq_true, if_false, List.lookup, ih]

/-- The four little-endian bytes of a 32-bit integer. -/
def leBytes4 (n : Nat) : List Nat :=
  [n % 256, n / 256 % 256, n / 65536 % 256, n / 16777216 % 256]

theorem read_long_leBytes4 (n : Nat) (h : n < 4294967296) (rest : List Nat) :
    read_long (leBytes4 n ++ rest) = Except.ok (n, rest) := by
  simp only [leBytes4, List.cons_append, List.nil_append, read_long]
  have hn : n % 256 + 256 * (n / 256 % 256 + 256 * (n / 65536 % 256 + 256 * (n / 16777216 % 256))) = n := by
    omega
  rw [hn]

/-- C9: decoding the int tag with the reference flag set (byte 0xe9)
followed by the little-endian bytes of `n` registers a fresh Int object as
back-reference index 0 and yields it, with the object holding exactly `n`
and tagged with the `int` class. -/
theorem C9_referenced_int (n : Nat) (h : n < 4294967296) (po : PrimitiveObjects)
    (store : ObjectStore) (rest : List Nat) :
    ∃ (r : ObjectRef) (store2 : ObjectStore) (o : Object),
      read_object_root po (233 :: (leBytes4 n ++ rest)) store =
        Except.ok (r, rest, store2, [r]) ∧
      store2.lookup r = some o ∧ o.content = ObjectContent.int n ∧
      o.class_ = po.int_type := by
  refine ⟨store.nextRef,
    { store with
      nextRef := store.nextRef + 1
      nextVersion := store.nextVersion + 1
      objects := (AList.insert store.nextRef (Object.new_instance store.nextVersion
        Option.none po.int_type (ObjectContent.int n)) store.objects) },
    Object.new_instance store.nextVersion Option.none po.int_type
      (ObjectContent.int n), ?_, ?_, rfl, rfl⟩
  · unfold read_object_root
    rw [read_object.eq_def]
    simp only [read_byte, read_long_leBytes4 n h rest, ObjectStore.new_int,
      ObjectStore.allocInstance, ObjectStore.allocate, ObjectStore.newVersion,
      ObjectStore.newRef, List.length_cons, bind, Except.bind]
    rw [show (233 : Nat) &&& 127 = 105 from by decide, show (233 : Nat) &&& 128 = 128 from by decide]
    norm_num
  · exact AList.lookup_insert _ _ _

/-- Witness for C9 at `n = 1000` (the byte sequence of the source's
`test_int` fixture) on the bootstrap store. -/
theorem C9_referenced_int_witness :
    1000 < 4294967296 ∧
    (∃ (r : ObjectRef) (store2 : ObjectStore) (o : Object),
      read_object_root bootstrap.1 (233 :: (leBytes4 1000 ++ [])) bootstrap.2 =
        Except.ok (r, [], store2, [r]) ∧
      store2.lookup r = some o ∧ o.content = ObjectContent.int 1000 ∧
      o.class_ = bootstrap.1.int_type) :=
  ⟨by norm_num, C9_referenced_int 1000 (by norm_num) bootstrap.1 bootstrap.2 []⟩

/-- C7 (code evaluated at the failing input): a back-reference whose 4-byte
little-endian index is out of range for the current table fails the
decoder's `assert!` — an aborting panic, not the returned
`UnmarshalError::InvalidReference` error the claim (and the error-kind
taxonomy) prescribe; an in-range index resolves to exactly the `ObjectRef`
recorded at that table position. -/
theorem C7_backref_out_of_range :
    read_object_root PrimitiveObjects.dummy [114, 0, 0, 0, 0] ObjectStore.new =
      Except.error DecodeFailure.assertFailed ∧
    (Except.error DecodeFailure.assertFailed ≠
      (Except.error (DecodeFailure.err UnmarshalError.invalidReference) :
        Except DecodeFailure (ObjectRef × List Nat × ObjectStore × List ObjectRef))) ∧
    read_object 9 PrimitiveObjects.dummy [114, 1, 0, 0, 0, 99] ObjectStore.new [41, 42, 43] =
      Except.ok (42, [99], ObjectStore.new, [41, 42, 43]) := by
  refine ⟨by decide, by decide, by decide⟩

/-- C6: the marshal byte sequence of a self-referential singleton list
(list tag with reference flag, length 1, single element back-reference 0)
decodes — the placeholder ref is registered in the back-reference table
before the child is decoded, then filled through `allocate_at` — and the
resulting List object's single element is the very same `ObjectRef` as the
list itself. -/
theorem C6_recursive_list (po : PrimitiveObjects) (store : ObjectStore)
    (h : store.lookup store.nextRef = Option.none) :
    ∃ (r : ObjectRef) (store2 : ObjectStore) (o : Object),
      read_object_root po [219, 1, 0, 0, 0, 114, 0, 0, 0, 0] store =
        Except.ok (r, [], store2, [r]) ∧
      store2.lookup r = some o ∧ o.content = ObjectContent.list [r] ∧
      o.class_ = po.list_type := by
  refine ⟨store.nextRef,
    { store with
      nextRef := store.nextRef + 1
      nextVersion := store.nextVersion + 1
      objects := (AList.insert store.nextRef (Object.new_instance store.nextVersion
        Option.none po.list_type (ObjectContent.list [store.nextRef])) store.objects) },
    Object.new_instance store.nextVersion Option.none po.list_type
      (ObjectContent.list [store.nextRef]), ?_, ?_, rfl, rfl⟩
  · unfold read_object_root
    rw [read_object.eq_def]
    simp only [read_byte, read_long, bind, Except.bind, List.length_cons, List.length_nil]
    rw [show (219 : Nat) &&& 127 = 91 from by decide,
        show (219 : Nat) &&& 128 = 128 from by decide]
    norm_num
    rw [read_objects.eq_def]
    norm_num
    rw [read_object.eq_def]
    simp only [read_byte, read_long, bind, Except.bind]
    rw [show (114 : Nat) &&& 127 = 114 from by decide,
        show (114 : Nat) &&& 128 = 0 from by decide]
    norm_num
    rw [read_objects.eq_def]
    simp only [ObjectStore.newRef, ObjectStore.allocate_at, Functor.map, Except.map,
      ObjectStore.lookup]
    rw [show store.objects.lookup store.nextRef = Option.none from h]
  · exact AList.lookup_insert _ _ _

/-- Witness for C6: decoding the fixture of the source's
`test_recursive_reference` on the bootstrap store. -/
theorem C6_recursive_list_witness :
    ∃ (r : ObjectRef) (store2 : ObjectStore) (o : Object),
      read_object_root bootstrap.1 [219, 1, 0, 0, 0, 114, 0, 0, 0, 0] bootstrap.2 =
        Except.ok (r, [], store2, [r]) ∧
      store2.lookup r = some o ∧ o.content = ObjectContent.list [r] ∧
      o.class_ = bootstrap.1.list_type :=
  C6_recursive_list bootstrap.1 bootstrap.2 (by decide)

/-! ## issubclass claims -/

/-- One `bases` edge of the inheritance graph: `y` is among the bases of
the object stored at `x`. -/
def basesStep (store : ObjectStore) (x y : ObjectRef) : Prop :=
  ∃ o bs, store.lookup x = some o ∧ o.bases = some bs ∧ y ∈ bs

/-- Every ref mentioned in any object's bases list is present in the store. -/
def storeClosed (store : ObjectStore) : Bool :=
  store.objects.all (fun p => (p.2.bases.getD []).all (fun b => (store.lookup b).isSome))

theorem lookup_mem {α β : Type} [BEq α] [LawfulBEq α] {l : List (α × β)} {k : α} {v : β}
    (h : l.lookup k = some v) : (k, v) ∈ l := by
  induction l with
  | nil => simp [List.lookup] at h
  | cons p rest ih =>
    rcases p with ⟨k2, v2⟩
    simp only [List.lookup] at h
    by_cases hk : k = k2
    · subst hk
      simp only [beq_self_eq_true] at h
      injection h with h
      subst h
      exact List.mem_cons_self _ _
    · have hb : (k == k2) = false := by simp [hk]
      rw [hb] at h
      simp only [Bool.false_eq_true, if_false] at h
      exact List.mem_cons_of_mem _ (ih h)

theorem storeClosed_bases {store : ObjectStore} {x : ObjectRef} {o : Object}
    {bs : List ObjectRef} (hclosed : storeClosed store = true)
    (hx : store.lookup x = some o) (hbs : o.bases = some bs) :
    ∀ y ∈ bs, (store.lookup y).isSome = true := by
  intro y hy
  have hmem : (x, o) ∈ store.objects := lookup_mem hx
  have := (List.all_eq_true.mp hclosed) ⟨x, o⟩ hmem
  have := List.all_eq_true.mp this y (by simp [hbs]; exact hy)
  exact this

/-- Executable form of `basesStep`, for deciding concrete instances. -/
def basesStepB (store : ObjectStore) (x y : ObjectRef) : Bool :=
  match store.lookup x with
  | some o =>
    match o.bases with
    | some bs => bs.contains y
    | Option.none => false
  | Option.none => false

theorem basesStep_iff_basesStepB (store : ObjectStore) (x y : ObjectRef) :
    basesStep store x y ↔ basesStepB store x y = true := by
  unfold basesStep basesStepB
  constructor
  · rintro ⟨o, bs, hx, hbs, hy⟩
    simp [hx, hbs]
    exact hy
  · intro h
    rcases hx : store.lookup x with _ | o
    · simp [hx] at h
    · rcases hbs : o.bases with _ | bs
      · simp [hx, hbs] at h
      · simp [hx, hbs] at h
        exact ⟨o, bs, rfl, hbs, h⟩

instance (store : ObjectStore) (x y : ObjectRef) : Decidable (basesStep store x y) :=
  decidable_of_iff _ (basesStep_iff_basesStepB store x y).symm

theorem issubclass_loop_lookup_none (store : ObjectStore) (second : ObjectRef)
    (visited : List ObjectRef) (candidate : ObjectRef) (rest : List ObjectRef)
    (hv : candidate ∉ visited) (hs : ¬ candidate = second)
    (hl : store.lookup candidate = Option.none) :
    issubclass_loop store second visited (candidate :: rest) =
      Except.error VMPanic.derefUnknownRef := by
  rw [issubclass_loop, dif_neg hv, if_neg hs]
  split
  · rfl
  · rename_i o heq
    rw [hl] at heq
    cases heq

theorem issubclass_loop_bases_none (store : ObjectStore) (second : ObjectRef)
    (visited : List ObjectRef) (candidate : ObjectRef) (rest : List ObjectRef) (o : Object)
    (hv : candidate ∉ visited) (hs : ¬ candidate = second)
    (hl : store.lookup candidate = some o) (hb : o.bases = Option.none) :
    issubclass_loop store second visited (candidate :: rest) =
      issubclass_loop store second (candidate :: visited) rest := by
  rw [issubclass_loop, dif_neg hv, if_neg hs]
  split
  · rename_i heq
    rw [hl] at heq
    cases heq
  · rename_i o2 heq
    rw [hl] at heq
    injection heq with heq
    subst heq
    split
    · rfl
    · rename_i bases heq2
      rw [hb] at heq2
      cases heq2

theorem issubclass_loop_bases_some (store : ObjectStore) (second : ObjectRef)
    (visited : List ObjectRef) (candidate : ObjectRef) (rest : List ObjectRef) (o : Object)
    (bases : List ObjectRef)
    (hv : candidate ∉ visited) (hs : ¬ candidate = second)
    (hl : store.lookup candidate = some o) (hb : o.bases = some bases) :
    issubclass_loop store second visited (candidate :: rest) =
      issubclass_loop store second (candidate :: visited) (rest ++ bases) := by
  rw [issubclass_loop, dif_neg hv, if_neg hs]
  split
  · rename_i heq
    rw [hl] at heq
    cases heq
  · rename_i o2 heq
    rw [hl] at heq
    injection heq with heq
    subst heq
    split
    · rename_i heq2
      rw [hb] at heq2
      cases heq2
    · rename_i bases2 heq2
      rw [hb] at heq2
      injection heq2 with heq2
      subst heq2
      rfl

theorem basesStep_of_lookup {store : ObjectStore} {x y : ObjectRef} {o : Object}
    {bs : List ObjectRef} (hx : store.lookup x = some o) (hbs : o.bases = some bs)
    (hy : y ∈ bs) : basesStep store x y := ⟨o, bs, hx, hbs, hy⟩

theorem reach_in_closed_set {store : ObjectStore} {visited : List ObjectRef}
    (hcl : ∀ v ∈ visited, ∀ y, basesStep store v y → y ∈ visited) :
    ∀ {x second : ObjectRef}, Relation.ReflTransGen (basesStep store) x second →
    x ∈ visited → second ∈ visited := by
  intro x second hpath
  induction hpath using Relation.ReflTransGen.head_induction_on with
  | refl => intro hx; exact hx
  | head hstep _ ih =>
    intro hx
    rename_i u v _
    exact ih (hcl _ hx _ hstep)

theorem issubclass_loop_sound (store : ObjectStore) (a second : ObjectRef) :
    ∀ (visited queue : List ObjectRef),
    (∀ q ∈ queue, Relation.ReflTransGen (basesStep store) a q) →
    issubclass_loop store second visited queue = Except.ok true →
    Relation.ReflTransGen (basesStep store) a second := by
  intro visited queue
  induction visited, queue using issubclass_loop.induct store second with
  | case1 visited =>
    intro _ hres
    rw [issubclass_loop] at hres
    cases hres
  | case2 visited candidate rest hv ih =>
    intro hq hres
    rw [issubclass_loop, dif_pos hv] at hres
    exact ih (fun q hmem => hq q (List.mem_cons_of_mem _ hmem)) hres
  | case3 visited rest hsv =>
    intro hq _
    exact hq second (List.mem_cons_self _ _)
  | case4 visited candidate rest hv hs hl =>
    intro _ hres
    rw [issubclass_loop_lookup_none store second visited candidate rest hv hs hl] at hres
    cases hres
  | case5 visited candidate rest hv hs o hl hb ih =>
    intro hq hres
    rw [issubclass_loop_bases_none store second visited candidate rest o hv hs hl hb] at hres
    exact ih (fun q hmem => hq q (List.mem_cons_of_mem _ hmem)) hres
  | case6 visited candidate rest hv hs o hl bases hb ih =>
    intro hq hres
    rw [issubclass_loop_bases_some store second visited candidate rest o bases hv hs hl hb] at hres
    refine ih (fun q hmem => ?_) hres
    rcases List.mem_append.mp hmem with hmem | hmem
    · exact hq q (List.mem_cons_of_mem _ hmem)
    · exact Relation.ReflTransGen.tail (hq candidate (List.mem_cons_self _ _))
        (basesStep_of_lookup hl hb hmem)

theorem issubclass_loop_complete (store : ObjectStore) (second : ObjectRef)
    (hclosed : storeClosed store = true) :
    ∀ (visited queue : List ObjectRef),
    (∀ q ∈ queue, (store.lookup q).isSome = true) →
    (∀ v ∈ visited, ∀ y, basesStep store v y → y ∈ visited ∨ y ∈ queue) →
    second ∉ visited →
    (∃ x, (x ∈ visited ∨ x ∈ queue) ∧ Relation.ReflTransGen (basesStep store) x second) →
    issubclass_loop store second visited queue = Except.ok true := by
  intro visited queue
  induction visited, queue using issubclass_loop.induct store second with
  | case1 visited =>
    intro _ hcl hsv hw
    exfalso
    rcases hw with ⟨x, hx, hpath⟩
    have hxv : x ∈ visited := by
      rcases hx with hx | hx
      · exact hx
      · cases hx
    have hclv : ∀ v ∈ visited, ∀ y, basesStep store v y → y ∈ visited := by
      intro v hv y hstep
      rcases hcl v hv y hstep with h | h
      · exact h
      · cases h
    exact hsv (reach_in_closed_set hclv hpath hxv)
  | case2 visited candidate rest hv ih =>
    intro hdom hcl hsv hw
    rw [issubclass_loop, dif_pos hv]
    refine ih (fun q hq => hdom q (List.mem_cons_of_mem _ hq)) ?_ hsv ?_
    · intro v hvv y hstep
      rcases hcl v hvv y hstep with h | h
      · exact Or.inl h
      · rcases List.mem_cons.mp h with h | h
        · subst h; exact Or.inl hv
        · exact Or.inr h
    · rcases hw with ⟨x, hx, hpath⟩
      refine ⟨x, ?_, hpath⟩
      rcases hx with hx | hx
      · exact Or.inl hx
      · rcases List.mem_cons.mp hx with hx | hx
        · subst hx; exact Or.inl hv
        · exact Or.inr hx
  | case3 visited rest hsv =>
    intro _ _ _ _
    rw [issubclass_loop, dif_neg hsv, if_pos rfl]
  | case4 visited candidate rest hv hs hl =>
    intro hdom _ _ _
    exfalso
    have := hdom candidate (List.mem_cons_self _ _)
    rw [hl] at this
    cases this
  | case5 visited candidate rest hv hs o hl hb ih =>
    intro hdom hcl hsv hw
    rw [issubclass_loop_bases_none store second visited candidate rest o hv hs hl hb]
    refine ih (fun q hq => hdom q (List.mem_cons_of_mem _ hq)) ?_ ?_ ?_
    · intro v hvv y hstep
      rcases List.mem_cons.mp hvv with hvc | hvv
      · subst hvc
        exfalso
        rcases hstep with ⟨o2, bs2, hl2, hb2, _⟩
        rw [hl] at hl2
        injection hl2 with hl2
        subst hl2
        rw [hb] at hb2
        cases hb2
      · rcases hcl v hvv y hstep with h | h
        · exact Or.inl (List.mem_cons_of_mem _ h)
        · rcases List.mem_cons.mp h with h | h
          · subst h; exact Or.inl (List.mem_cons_self _ _)
          · exact Or.inr h
    · intro hmem
      rcases List.mem_cons.mp hmem with h | h
      · exact hs h.symm
      · exact hsv h
    · rcases hw with ⟨x, hx, hpath⟩
      by_cases hxc : x = candidate
      · subst hxc
        exfalso
        rcases (Relation.ReflTransGen.cases_head hpath) with h | ⟨y, hstep, _⟩
        · exact hs h
        · rcases hstep with ⟨o2, bs2, hl2, hb2, _⟩
          rw [hl] at hl2
          injection hl2 with hl2
          subst hl2
          rw [hb] at hb2
          cases hb2
      · refine ⟨x, ?_, hpath⟩
        rcases hx with hx | hx
        · exact Or.inl (List.mem_cons_of_mem _ hx)
        · rcases List.mem_cons.mp hx with h | h
          · exact absurd h hxc
          · exact Or.inr h
  | case6 visited candidate rest hv hs o hl bases hb ih =>
    intro hdom hcl hsv hw
    rw [issubclass_loop_bases_some store second visited candidate rest o bases hv hs hl hb]
    have hbdom : ∀ y ∈ bases, (store.lookup y).isSome = true :=
      storeClosed_bases hclosed hl hb
    refine ih ?_ ?_ ?_ ?_
    · intro q hq
      rcases List.mem_append.mp hq with h | h
      · exact hdom q (List.mem_cons_of_mem _ h)
      · exact hbdom q h
    · intro v hvv y hstep
      rcases List.mem_cons.mp hvv with hvc | hvv
      · subst hvc
        rcases hstep with ⟨o2, bs2, hl2, hb2, hy2⟩
        rw [hl] at hl2
        injection hl2 with hl2
        subst hl2
        rw [hb] at hb2
        injection hb2 with hb2
        subst hb2
        exact Or.inr (List.mem_append.mpr (Or.inr hy2))
      · rcases hcl v hvv y hstep with h | h
        · exact Or.inl (List.mem_cons_of_mem _ h)
        · rcases List.mem_cons.mp h with h | h
          · subst h; exact Or.inl (List.mem_cons_self _ _)
          · exact Or.inr (List.mem_append.mpr (Or.inl h))
    · intro hmem
      rcases List.mem_cons.mp hmem with h | h
      · exact hs h.symm
      · exact hsv h
    · rcases hw with ⟨x, hx, hpath⟩
      by_cases hxc : x = candidate
      · subst hxc
        rcases (Relation.ReflTransGen.cases_head hpath) with h | ⟨y, hstep, hpath2⟩
        · exact absurd h hs
        · rcases hstep with ⟨o2, bs2, hl2, hb2, hy2⟩
          rw [hl] at hl2
          injection hl2 with hl2
          subst hl2
          rw [hb] at hb2
          injection hb2 with hb2
          subst hb2
          exact ⟨y, Or.inr (List.mem_append.mpr (Or.inr hy2)), hpath2⟩
      · refine ⟨x, ?_, hpath⟩
        rcases hx with hx | hx
        · exact Or.inl (List.mem_cons_of_mem _ hx)
        · rcases List.mem_cons.mp hx with h | h
          · exact absurd h hxc
          · exact Or.inr (List.mem_append.mpr (Or.inl h))

theorem issubclass_loop_ok (store : ObjectStore) (second : ObjectRef)
    (hclosed : storeClosed store = true) :
    ∀ (visited queue : List ObjectRef),
    (∀ q ∈ queue, (store.lookup q).isSome = true) →
    ∃ v, issubclass_loop store second visited queue = Except.ok v := by
  intro visited queue
  induction visited, queue using issubclass_loop.induct store second with
  | case1 visited =>
    intro _
    exact ⟨false, by rw [issubclass_loop]⟩
  | case2 visited candidate rest hv ih =>
    intro hdom
    rcases ih (fun q hq => hdom q (List.mem_cons_of_mem _ hq)) with ⟨v, hres⟩
    refine ⟨v, ?_⟩
    rw [issubclass_loop, dif_pos hv]
    exact hres
  | case3 visited rest hsv =>
    intro _
    refine ⟨true, ?_⟩
    rw [issubclass_loop, dif_neg hsv, if_pos rfl]
  | case4 visited candidate rest hv hs hl =>
    intro hdom
    exfalso
    have := hdom candidate (List.mem_cons_self _ _)
    rw [hl] at this
    cases this
  | case5 visited candidate rest hv hs o hl hb ih =>
    intro hdom
    rcases ih (fun q hq => hdom q (List.mem_cons_of_mem _ hq)) with ⟨v, hres⟩
    refine ⟨v, ?_⟩
    rw [issubclass_loop_bases_none store second visited candidate rest o hv hs hl hb]
    exact hres
  | case6 visited candidate rest hv hs o hl bases hb ih =>
    intro hdom
    have hbdom : ∀ y ∈ bases, (store.lookup y).isSome = true :=
      storeClosed_bases hclosed hl hb
    have hall : ∀ q ∈ rest ++ bases, (store.lookup q).isSome = true := by
      intro q hq
      rcases List.mem_append.mp hq with h | h
      · exact hdom q (List.mem_cons_of_mem _ h)
      · exact hbdom q h
    rcases ih hall with ⟨v, hres⟩
    refine ⟨v, ?_⟩
    rw [issubclass_loop_bases_some store second visited candidate rest o bases hv hs hl hb]
    exact hres

/-- C10: on a store whose bases lists mention only present refs, for any
two refs in the store `native_issubclass` terminates with a boolean (it
never panics, cycles in the bases graph notwithstanding), that boolean is
`true` exactly when `b` is reachable from `a` along zero or more bases
edges, and in particular the relation is reflexive. -/
theorem C10_native_issubclass (store : ObjectStore) (a b : ObjectRef)
    (hclosed : storeClosed store = true)
    (ha : (store.lookup a).isSome = true)
    (hb : (store.lookup b).isSome = true) :
    (∃ v, native_issubclass store a b = Except.ok v) ∧
    (native_issubclass store a b = Except.ok true ↔
      Relation.ReflTransGen (basesStep store) a b) ∧
    native_issubclass store a a = Except.ok true := by
  have hdom : ∀ q ∈ [a], (store.lookup q).isSome = true := by
    intro q hq
    rcases List.mem_singleton.mp hq with rfl
    exact ha
  refine ⟨issubclass_loop_ok store b hclosed [] [a] hdom, ⟨?_, ?_⟩, ?_⟩
  · intro hres
    exact issubclass_loop_sound store a b [] [a]
      (fun q hq => by rcases List.mem_singleton.mp hq with rfl; exact Relation.ReflTransGen.refl)
      hres
  · intro hreach
    exact issubclass_loop_complete store b hclosed [] [a] hdom
      (by intro v hv; cases hv) (by intro h; cases h)
      ⟨a, Or.inr (List.mem_singleton.mpr rfl), hreach⟩
  · exact issubclass_loop_complete store a hclosed [] [a] hdom
      (by intro v hv; cases hv) (by intro h; cases h)
      ⟨a, Or.inr (List.mem_singleton.mpr rfl), Relation.ReflTransGen.refl⟩

/-- Witness for C10 on the bootstrap store: `KeyError` is a subclass of
`BaseException` (via `LookupError ⊆ Exception ⊆ BaseException`), and the
check runs to completion despite the `object`/`type` bootstrap cycle being
in the store. -/
theorem C10_native_issubclass_witness :
    native_issubclass bootstrap.2 bootstrap.1.keyerror bootstrap.1.baseexception =
      Except.ok true :=
  (C10_native_issubclass bootstrap.2 bootstrap.1.keyerror bootstrap.1.baseexception
    (by decide) (by decide) (by decide)).2.1.mpr
    (Relation.ReflTransGen.head (by decide : basesStep bootstrap.2 bootstrap.1.keyerror
        bootstrap.1.lookuperror)
      (Relation.ReflTransGen.head (by decide : basesStep bootstrap.2 bootstrap.1.lookuperror
          bootstrap.1.exception)
        (Relation.ReflTransGen.head (by decide : basesStep bootstrap.2 bootstrap.1.exception
            bootstrap.1.baseexception) Relation.ReflTransGen.refl)))

/-! ## Iterator claims -/

/-- C3: one step of a `RandomAccessIterator` over a list or tuple. If the
container version differs from the snapshot the step is the aborting
"Container changed while iterating" panic (no stale or out-of-bounds
element is ever returned); otherwise an index at or past the length raises
the `StopIteration` program exception instead of returning a value; and
otherwise the element at the index is pushed on the caller and the
iterator's index advances by exactly one. -/
theorem C3_iterator_step (state : State) (call_stack : List Frame) (itRef : ObjectRef)
    (itObj : Object) (c : ObjectRef) (index ver : Nat) (contObj : Object)
    (hit : state.store.lookup itRef = some itObj)
    (hcontent : itObj.content = ObjectContent.randomAccessIterator c index ver)
    (hcont : state.store.lookup c = some contObj) :
    (contObj.version ≠ ver →
      iter state call_stack [itRef] = Except.error VMPanic.containerChanged) ∧
    (∀ v, contObj.version = ver →
      (contObj.content = ObjectContent.list v ∨ contObj.content = ObjectContent.tuple v) →
      v.length ≤ index →
      iter state call_stack [itRef] =
        raise state call_stack state.primitive_objects.stopiteration "StopIteration instance") ∧
    (∀ v x f rest, contObj.version = ver →
      (contObj.content = ObjectContent.list v ∨ contObj.content = ObjectContent.tuple v) →
      v[index]? = some x → call_stack = f :: rest →
      iter state call_stack [itRef] = Except.ok
        ({ state with store := state.store.set itRef { itObj with content :=
            (ObjectContent.randomAccessIterator c (index + 1) ver) } },
         { f with var_stack := x :: f.var_stack } :: rest)) := by
  refine ⟨?_, ?_, ?_⟩
  · intro hver
    simp [iter, hit, hcontent, hcont, hver]
  · intro v hver hlt hlen
    have hnone : v[index]? = Option.none := by
      rw [← List.get?_eq_getElem?]
      exact List.get?_eq_none.mpr hlen
    rcases hlt with hlt | hlt <;>
      simp [iter, hit, hcontent, hcont, hver, hlt, hnone]
  · intro v x f rest hver hlt hsome hcs
    subst hcs
    rcases hlt with hlt | hlt <;>
      simp [iter, hit, hcontent, hcont, hver, hlt, hsome, return_value]

/-- A two-object fixture: ref 0 holds a one-element list (version 100) and
ref 1 holds a `RandomAccessIterator` over it at index 0 with a matching
version snapshot (the iterator object itself has version 200). -/
def iterFixtureContainer : Object :=
  { version := 100, name := Option.none, content := ObjectContent.list [7],
    class_ := 50, bases := Option.none }

def iterFixtureIterator : Object :=
  { version := 200, name := Option.none,
    content := ObjectContent.randomAccessIterator 0 0 100,
    class_ := 51, bases := Option.none }

def iterFixtureState : State :=
  { store := { nextRef := 2, nextVersion := 0,
               objects := [(0, iterFixtureContainer), (1, iterFixtureIterator)] },
    primitive_functions := get_default_primitives,
    primitive_objects := PrimitiveObjects.dummy,
    modules := [] }

def iterFixtureFrame : Frame :=
  { object := 9, var_stack := [], block_stack := [], locals := [], code := emptyCode,
    program_counter := 0 }

/-- The iterator object after one successful step (index advanced, same
version), and the resulting state. -/
def iterFixtureIteratorAfter : Object :=
  { iterFixtureIterator with content := (ObjectContent.randomAccessIterator 0 1 100) }

def iterFixtureStateAfter : State :=
  { iterFixtureState with store := (iterFixtureState.store.set 1 iterFixtureIteratorAfter) }

/-- Witness for C3: a successful step on the fixture returns element 7 to
the caller frame and advances the iterator index from 0 to 1. -/
theorem C3_iterator_step_witness :
    iter iterFixtureState [iterFixtureFrame] [1] = Except.ok
      (iterFixtureStateAfter, [{ iterFixtureFrame with var_stack := [7] }]) :=
  (C3_iterator_step iterFixtureState [iterFixtureFrame] 1 iterFixtureIterator 0 0 100
    iterFixtureContainer (by decide) (by decide) (by decide)).2.2 [7] 7 iterFixtureFrame []
    (by decide) (Or.inl (by decide)) (by decide) rfl

/-- C5 (code evaluated at the failing input): the iterator step mutates the
iterator object's content (its index advances) through `deref_mut`, yet the
object's `version` is unchanged afterwards — no mutation path of the store
bumps `version`, contradicting the claimed one-bump-per-content-mutation
invariant. -/
theorem C5_version_unchanged_on_mutation :
    iter iterFixtureState [iterFixtureFrame] [1] = Except.ok
      (iterFixtureStateAfter, [{ iterFixtureFrame with var_stack := [7] }]) ∧
    iterFixtureStateAfter.store.lookup 1 = some iterFixtureIteratorAfter ∧
    iterFixtureIteratorAfter.content ≠ iterFixtureIterator.content ∧
    iterFixtureIteratorAfter.version = iterFixtureIterator.version := by
  refine ⟨by decide, by decide, by decide, by decide⟩

/-! ## Name-resolution claims -/

/-- A second definition following the words of claim C2 (and spec section
4.4), for comparison against the source's `load_name`: local map first,
then the enclosing module's global dict, then the builtins dict, then the
two synthetic names. -/
def load_name_claim_order (state : State) (frame : Frame) (name : String) :
    Except VMPanic (Option ObjectRef × State) :=
  match frame.locals.lookup name with
  | some r => Except.ok (some r, state)
  | Option.none =>
    match ObjectRef.module state.store frame.object with
    | Except.error p => Except.error p
    | Except.ok mod_name =>
      match (state.modules.lookup mod_name).bind (fun m => m.lookup name) with
      | some r => Except.ok (some r, state)
      | Option.none =>
        match (state.modules.lookup "builtins").bind (fun m => m.lookup name) with
        | some r => Except.ok (some r, state)
        | Option.none =>
          if name = "__primitives__" then
            let (r, store) := state.store.allocInstance (some "__primitives__")
              state.primitive_objects.object ObjectContent.primitiveNamespace
            Except.ok (some r, { state with store := store })
          else if name = "__name__" then
            let (r, store) := state.store.new_string state.primitive_objects "<module>"
            Except.ok (some r, { state with store := store })
          else
            Except.ok (Option.none, state)

/-- The resolution order the source actually implements for a name that is
not one of the two synthetic names: locals, then the builtins dict, then
the enclosing module's globals. -/
def load_name_amended_order (state : State) (frame : Frame) (name : String) :
    Except VMPanic (Option ObjectRef × State) :=
  match frame.locals.lookup name with
  | some r => Except.ok (some r, state)
  | Option.none =>
    match (state.modules.lookup "builtins").bind (fun m => m.lookup name) with
    | some r => Except.ok (some r, state)
    | Option.none =>
      match ObjectRef.module state.store frame.object with
      | Except.error p => Except.error p
      | Except.ok mod_name =>
        match (state.modules.lookup mod_name).bind (fun m => m.lookup name) with
        | some r => Except.ok (some r, state)
        | Option.none => Except.ok (Option.none, state)

/-- A state in which the name `x` is bound to ref 10 in the `builtins` dict
and to ref 20 in the globals of the frame's own module `m`. -/
def c2ModuleObject : Object :=
  { version := 0
    name := some "m"
    content := ObjectContent.module 99
    class_ := 50
    bases := Option.none }

def c2State : State :=
  { store := { nextRef := 1, nextVersion := 1, objects := [(0, c2ModuleObject)] }
    primitive_functions := get_default_primitives
    primitive_objects := PrimitiveObjects.dummy
    modules := [("builtins", [("x", 10)]), ("m", [("x", 20)])] }

def c2Frame : Frame :=
  { object := 0
    var_stack := []
    block_stack := []
    locals := []
    code := { emptyCode with names := ["x", "y"] }
    program_counter := 0 }

/-- Counterexample to C2 as stated: for the non-synthetic name `x`, bound
in both the builtins dict (ref 10) and the enclosing module's globals
(ref 20), the source's `load_name` returns the builtins binding, while the
claim's order (module globals before builtins) returns the globals one. -/
theorem C2_load_name_counterexample :
    load_name c2State c2Frame "x" = Except.ok (some 10, c2State) ∧
    load_name_claim_order c2State c2Frame "x" = Except.ok (some 20, c2State) ∧
    (10 : ObjectRef) ≠ 20 := by
  refine ⟨by decide, by decide, by decide⟩

/-- C2 (amended): for a bare-name load of a name that is neither synthetic
name, the interpreter consults the frame's local map, then the `builtins`
module's dict, then the enclosing module's global dict; failing all three,
the `LoadName` arm raises a `NameError` program exception. -/
theorem C2_load_name_amended :
    (∀ (state : State) (frame : Frame) (name : String),
      name ≠ "__primitives__" → name ≠ "__name__" →
      load_name state frame name = load_name_amended_order state frame name) ∧
    (∀ (state : State) (frame : Frame) (rest : List Frame) (i : Nat) (name : String)
      (mod_name : String),
      frame.code.names.get? i = some name →
      name ≠ "__primitives__" → name ≠ "__name__" →
      frame.locals.lookup name = Option.none →
      (state.modules.lookup "builtins").bind (fun m => m.lookup name) = Option.none →
      ObjectRef.module state.store frame.object = Except.ok mod_name →
      (state.modules.lookup mod_name).bind (fun m => m.lookup name) = Option.none →
      run_load_name state (frame :: rest) i =
        raise state (frame :: rest) state.primitive_objects.nameerror
          ("Unknown variable " ++ name)) := by
  constructor
  · intro state frame name h1 h2
    rw [load_name, load_name_amended_order]
    rw [if_neg h1, if_neg h2]
  · intro state frame rest i name mod_name hname h1 h2 hloc hbuiltins hmod hglobals
    have hln : load_name state frame name = Except.ok (Option.none, state) := by
      simp only [load_name, if_neg h1, if_neg h2, hloc, hbuiltins, hmod, hglobals]
    simp only [run_load_name, hname, hln]

/-- Witness for C2: on the concrete state, the unknown name `y` (names
table index 1) makes the `LoadName` arm raise the `NameError`. -/
theorem C2_load_name_amended_witness :
    run_load_name c2State [c2Frame] 1 =
      raise c2State [c2Frame] c2State.primitive_objects.nameerror
        ("Unknown variable " ++ "y") :=
  C2_load_name_amended.2 c2State c2Frame [] 1 "y" "m" (by decide) (by decide) (by decide)
    (by decide) (by decide) (by decide) (by decide)

/-! ## Function-call claims -/

/-- C8: calling a function whose code does not accept variadic positional
arguments (flag bit 2 clear) with a number of positional arguments
different from the declared argument count panics with the argument-count
condition, before any frame for the function body is created or run. -/
theorem C8_argument_count (state : State) (call_stack : List Frame) (func_ref : ObjectRef)
    (args : List ObjectRef) (kwargs : List (ObjectRef × ObjectRef))
    (funco codeo : Object) (m : String) (code_ref : ObjectRef)
    (defaults : List (String × ObjectRef)) (code : Code)
    (hf : state.store.lookup func_ref = some funco)
    (hfc : funco.content = ObjectContent.function m code_ref defaults)
    (hc : state.store.lookup code_ref = some codeo)
    (hcc : codeo.content = ObjectContent.code code)
    (hnova : code.flags &&& 0x4 = 0)
    (hmismatch : code.argcount ≠ args.length) :
    call_function state call_stack func_ref args kwargs =
      Except.error VMPanic.argumentCount := by
  simp [call_function, hf, hfc, hc, hcc, Code.get_varargs_name, Code.co_varargs, hnova,
    hmismatch, bind, Except.bind]

/-- A function object (ref 0) over a two-parameter code object (ref 1)
without variadic arguments, and a state holding them. -/
def c8Code : Code :=
  { emptyCode with argcount := 2, nlocals := 2, varnames := ["a", "b"] }

def c8FuncObject : Object :=
  { version := 0
    name := some "f"
    content := ObjectContent.function "m" 1 []
    class_ := 50
    bases := Option.none }

def c8CodeObject : Object :=
  { version := 1
    name := Option.none
    content := ObjectContent.code c8Code
    class_ := 51
    bases := Option.none }

def c8State : State :=
  { store := { nextRef := 2, nextVersion := 2, objects := [(0, c8FuncObject), (1, c8CodeObject)] }
    primitive_functions := get_default_primitives
    primitive_objects := PrimitiveObjects.dummy
    modules := [] }

/-- Witness for C8: calling the two-parameter function with one positional
argument is the argument-count panic. -/
theorem C8_argument_count_witness :
    call_function c8State [iterFixtureFrame] 0 [9] [] =
      Except.error VMPanic.argumentCount :=
  C8_argument_count c8State [iterFixtureFrame] 0 [9] [] c8FuncObject c8CodeObject "m" 1 []
    c8Code (by decide) (by decide) (by decide) (by decide) (by decide) (by decide)

/-- The primitive-object registry of the C4 fixture, with distinct refs for
the exception classes named by `call_function`'s error paths. -/
def c4PO : PrimitiveObjects :=
  { PrimitiveObjects.dummy with
    none := 60
    processorerror := 77
    baseexception := 88
    typeerror := 99 }

def c4IntObject : Object :=
  { version := 1
    name := Option.none
    content := ObjectContent.int 5
    class_ := 51
    bases := Option.none }

def c4PrimFuncObject : Object :=
  { version := 3
    name := Option.none
    content := ObjectContent.primitiveFunction "nope"
    class_ := 51
    bases := Option.none }

def c4Store : ObjectStore :=
  { nextRef := 4
    nextVersion := 2
    objects := [(0, c8FuncObject), (1, c4IntObject), (3, c4PrimFuncObject)] }

def c4State : State :=
  { store := c4Store
    primitive_functions := get_default_primitives
    primitive_objects := c4PO
    modules := [] }

def c4Frame : Frame :=
  { object := 9
    var_stack := []
    block_stack := [Block.tryExcept 3 9]
    locals := []
    code := emptyCode
    program_counter := 4 }

/-- Counterexample to C4 as stated: calling a function whose code ref holds
an Int (the internal not-a-code-object condition) does not abort — it
allocates an exception instance of the `ProcessorError` class and delivers
it through the unwinding protocol to the enclosing frame's `TryExcept`
handler (six values pushed, program counter moved to the handler), i.e. an
internal error became a program-level exception catchable by try/except. -/
theorem C4_internal_error_is_catchable :
    call_function c4State [c4Frame] 0 [] [] = Except.ok (CallOutcome.normal
      { c4State with store := ((c4State.store.allocInstance Option.none 77
          (ObjectContent.string "Not a code object")).2) }
      [{ c4Frame with
          program_counter := 9
          var_stack := [4, 60, 60, 4, 60, 60] }]) ∧
    ((c4State.store.allocInstance Option.none 77
        (ObjectContent.string "Not a code object")).2).lookup 4 =
      some (Object.new_instance 2 Option.none 77 (ObjectContent.string "Not a code object")) ∧
    (Object.new_instance 2 Option.none 77 (ObjectContent.string "Not a code object")).class_ =
      c4State.primitive_objects.processorerror := by
  refine ⟨by decide, by decide, by decide⟩

/-- C4 (amended): errors routed through `State::raise_processor_error`
abort execution without entering the unwinding protocol; but
`call_function` converts a not-a-code-object condition into a program-level
exception of class `ProcessorError`, and an unknown primitive-function name
into one of class `BaseException`, both raised through the unwinding
protocol; and a raised exception whose enclosing frame holds a `TryExcept`
block is delivered to that handler as an ordinary exception object of the
raised class. -/
theorem C4_amended :
    (∀ e : ProcessorError, State.raise_processor_error e =
      Except.error (VMPanic.processorError e)) ∧
    (∀ (state : State) (cs : List Frame) (func_ref : ObjectRef) (args : List ObjectRef)
        (kwargs : List (ObjectRef × ObjectRef)) (funco : Object) (m : String)
        (code_ref : ObjectRef) (defaults : List (String × ObjectRef)) (codeo : Object),
      state.store.lookup func_ref = some funco →
      funco.content = ObjectContent.function m code_ref defaults →
      state.store.lookup code_ref = some codeo →
      (∀ c : Code, codeo.content ≠ ObjectContent.code c) →
      call_function state cs func_ref args kwargs =
        (raise state cs state.primitive_objects.processorerror "Not a code object").map
          (fun p => CallOutcome.normal p.1 p.2)) ∧
    (∀ (state : State) (cs : List Frame) (func_ref : ObjectRef) (args : List ObjectRef)
        (kwargs : List (ObjectRef × ObjectRef)) (funco : Object) (pname : String),
      state.store.lookup func_ref = some funco →
      funco.content = ObjectContent.primitiveFunction pname →
      pname ∉ state.primitive_functions →
      call_function state cs func_ref args kwargs =
        (raise state cs state.primitive_objects.baseexception
          ("Unknown primitive " ++ pname)).map (fun p => CallOutcome.normal p.1 p.2)) ∧
    (∀ (state : State) (frame : Frame) (rest : List Frame) (exc_class : ObjectRef)
        (msg : String) (b e : Nat) (bs : List Block),
      frame.block_stack = Block.tryExcept b e :: bs →
      ∃ (exc : ObjectRef) (store2 : ObjectStore) (excObj : Object),
        raise state (frame :: rest) exc_class msg = Except.ok
          ({ state with store := store2 },
           { frame with
              program_counter := e
              var_stack := (exc :: state.primitive_objects.none ::
                state.primitive_objects.none :: exc :: state.primitive_objects.none ::
                state.primitive_objects.none :: frame.var_stack) } :: rest) ∧
        store2.lookup exc = some excObj ∧ excObj.class_ = exc_class) := by
  refine ⟨fun e => rfl, ?_, ?_, ?_⟩
  · intro state cs func_ref args kwargs funco m code_ref defaults codeo hf hfc hc hnc
    cases hcc : codeo.content
    case code c => exact absurd hcc (hnc c)
    all_goals unfold call_function
    all_goals rw [hf]
    all_goals simp only [hfc, hc, hcc]
  · intro state cs func_ref args kwargs funco pname hf hfc hnp
    simp [call_function, hf, hfc, hnp]
  · intro state frame rest exc_class msg b e bs hbs
    refine ⟨state.store.nextRef,
      (state.store.allocInstance Option.none exc_class (ObjectContent.string msg)).2,
      Object.new_instance state.store.nextVersion Option.none exc_class
        (ObjectContent.string msg), ?_, ?_, rfl⟩
    · have hu := unwind_cons_handled
        (state.store.allocInstance Option.none exc_class (ObjectContent.string msg)).2
        state.primitive_objects.none state.store.nextRef state.primitive_objects.none
        frame _ rest
        (unwind_frame_tryExcept
          (state.store.allocInstance Option.none exc_class (ObjectContent.string msg)).2
          state.primitive_objects.none state.store.nextRef state.primitive_objects.none
          frame b e bs hbs)
      simp only [raise, ObjectStore.allocInstance, ObjectStore.allocate, ObjectStore.newRef,
        ObjectStore.newVersion] at hu ⊢
      rw [hu, ← hbs]
      rfl
    · exact AList.lookup_insert _ _ _

/-- Witness for C4 on the concrete fixture: the unknown primitive name
`nope` is raised as a `BaseException`-class program exception. -/
theorem C4_amended_witness :
    call_function c4State [c4Frame] 3 [] [] =
      (raise c4State [c4Frame] c4State.primitive_objects.baseexception
        ("Unknown primitive " ++ "nope")).map (fun p => CallOutcome.normal p.1 p.2) :=
  C4_amended.2.2.1 c4State [c4Frame] 3 [] [] c4PrimFuncObject "nope"
    (by decide) (by decide) (by decide)

end PyVM
